import Mathlib

/-!
# GIMP pattern select button (`libgimp/gimppatternselectbutton.c`)

A shallow embedding of the widget's state and of the functions that change
it.  The widget's private structure and the `temp_callback` field of its
`GimpSelectButton` base are one record; every function returns the new
record together with the ordered list of the calls it makes into code
outside the file (repository, session, toolkit, signal bus).

Conventions:
* `gchar *` strings are lists of characters and a `NULL` pointer is `none`;
* a pixel buffer (`guchar *`) is a list of byte values, `NULL` is `none`;
* `gint` arithmetic is done in `Int`; signed overflow, which C leaves
  undefined, lies outside the model.  The conversions to `gsize` and the
  result of `%i` are reduced modulo the width of the C type.
-/

namespace GimpPatternSelect

/-- A C string without its terminating NUL. -/
abbrev CStr := List Char

/-- The bytes behind a `guchar *`. -/
abbrev Bytes := List Nat

/-- The inline preview cell, `#define CELL_SIZE 20`. -/
def CELL_SIZE : Int := 20

/-- The image types of `GimpImageType`. -/
inductive GimpImageType
  | GIMP_RGB_IMAGE
  | GIMP_RGBA_IMAGE
  | GIMP_GRAY_IMAGE
  | GIMP_GRAYA_IMAGE
  | GIMP_INDEXED_IMAGE
  | GIMP_INDEXEDA_IMAGE
  deriving DecidableEq, Repr

/-- The fundamental types used in the declaration of the `pattern-set` signal. -/
inductive GType
  | G_TYPE_STRING
  | G_TYPE_INT
  | G_TYPE_POINTER
  | G_TYPE_BOOLEAN
  deriving DecidableEq, Repr

/-- A value handed to `g_signal_emit` through its variable argument list. -/
inductive CArg
  | string (s : Option CStr)
  | int (i : Int)
  | pointer (p : Option Bytes)
  | boolean (b : Bool)
  deriving DecidableEq, Repr

/-- The two preview areas a draw can go to: the inline cell of the button
and the preview inside the popup window. -/
inductive PreviewArea
  | inline_preview
  | popup_preview
  deriving DecidableEq, Repr

/-- A `GdkRectangle`. -/
structure GdkRectangle where
  x : Int
  y : Int
  width : Int
  height : Int
  deriving DecidableEq, Repr

/-- The popup window of the button: where `gtk_window_move` put it and the
size requested for the preview it contains. -/
structure Popup where
  x : Int
  y : Int
  width : Int
  height : Int
  deriving DecidableEq, Repr

/-- What `gimp_pattern_get_pixels` writes through its out-parameters when it
returns `TRUE`. -/
structure PatternPixels where
  width : Int
  height : Int
  bytes : Int
  mask_data_size : Int
  mask_data : Option Bytes
  deriving DecidableEq, Repr

/-- The fields of `_GimpPatternSelectButtonPrivate` that carry state, and
`temp_callback` of the `GimpSelectButton` base class. -/
structure Button where
  title : Option CStr
  pattern_name : Option CStr
  width : Int
  height : Int
  bytes : Int
  mask_data : Option Bytes
  popup : Option Popup
  temp_callback : Option CStr
  deriving DecidableEq, Repr

/-- The calls the widget makes into code outside the file, in the order they
are made. -/
inductive Effect
  | gimp_context_get_pattern
  | gimp_pattern_get_pixels (name : Option CStr)
  | gimp_patterns_set_popup (callback : CStr) (name : Option CStr)
  | gimp_pattern_select_new (title : Option CStr) (name : Option CStr)
  | gimp_preview_area_draw (area : PreviewArea) (x y width height : Int)
      (type : GimpImageType) (buf : Option Bytes) (rowstride : Int)
  | g_signal_emit_pattern_set (args : List CArg)
  | g_object_notify_pattern_name
  | gtk_grab_add
  | gtk_grab_remove
  | gtk_window_new_popup
  | gtk_window_move (x y : Int)
  | gtk_widget_destroy_popup
  | g_warning (msg : String)
  deriving DecidableEq, Repr

/-- The collaborators of the widget.  Their code is outside the file, so
their answers are parameters:
* `gimp_context_get_pattern`: the repository's current pattern name;
* `gimp_pattern_get_pixels`: the repository lookup, `none` when it returns
  `FALSE`;
* `gimp_pattern_select_new`: the handle of the session that was opened, `NULL`
  (`none`) when none was;
* `gimp_getpid`, `g_utf8_validate`: the process id and the text check used
  by the drop handler;
* `x_org`, `y_org`: the answer of `gdk_window_get_origin` for the inline
  preview; `workarea`: the answer of `gdk_monitor_get_workarea`. -/
structure Env where
  gimp_context_get_pattern : Option CStr
  gimp_pattern_get_pixels : Option CStr → Option PatternPixels
  gimp_pattern_select_new : Option CStr → Option CStr → Option CStr
  gimp_getpid : Int
  g_utf8_validate : CStr → Bool
  x_org : Int
  y_org : Int
  workarea : GdkRectangle

/-- The parameter types of the `pattern-set` signal as `class_init` passes
them to `g_signal_new`. -/
def pattern_set_param_types : List GType :=
  [GType.G_TYPE_STRING, GType.G_TYPE_INT, GType.G_TYPE_INT, GType.G_TYPE_INT,
   GType.G_TYPE_POINTER, GType.G_TYPE_BOOLEAN]

/-- Conversion of a `gint` to the unsigned 64-bit `gsize`. -/
def gint_to_gsize (n : Int) : Nat := (n % 2 ^ 64).toNat

/-- The glib function `g_memdup2 (mem, byte_size)`: `NULL` when `mem` is `NULL`
or `byte_size` is zero, else a fresh copy of the first `byte_size` bytes. -/
def g_memdup2 (mem : Option Bytes) (byte_size : Nat) : Option Bytes :=
  match mem with
  | none => none
  | some d => if byte_size = 0 then none else some (d.take byte_size)

/-- `gimp_pattern_select_preview_update`: one draw for 1 to 4 bytes per
pixel, nothing for any other value. -/
def gimp_pattern_select_preview_update (preview : PreviewArea)
    (width height bytes : Int) (mask_data : Option Bytes) : List Effect :=
  if bytes = 1 then
    [Effect.gimp_preview_area_draw preview 0 0 width height
      GimpImageType.GIMP_GRAY_IMAGE mask_data (width * bytes)]
  else if bytes = 2 then
    [Effect.gimp_preview_area_draw preview 0 0 width height
      GimpImageType.GIMP_GRAYA_IMAGE mask_data (width * bytes)]
  else if bytes = 3 then
    [Effect.gimp_preview_area_draw preview 0 0 width height
      GimpImageType.GIMP_RGB_IMAGE mask_data (width * bytes)]
  else if bytes = 4 then
    [Effect.gimp_preview_area_draw preview 0 0 width height
      GimpImageType.GIMP_RGBA_IMAGE mask_data (width * bytes)]
  else
    []

/-- `gimp_pattern_select_button_get_pattern`. -/
def gimp_pattern_select_button_get_pattern (button : Button) : Option CStr :=
  button.pattern_name

/-- `gimp_pattern_select_button_callback`: store copies of the name and of
the pixels, redraw the inline preview, drop the session on closing, emit
`pattern-set` and notify `pattern-name`.  The argument list of the emission
is the one written in the source. -/
def gimp_pattern_select_button_callback (pattern_name : Option CStr)
    (width height bytes : Int) (mask_data : Option Bytes)
    (dialog_closing : Bool) (button : Button) : Button × List Effect :=
  let b1 : Button :=
    { button with
      pattern_name := pattern_name
      width := width
      height := height
      bytes := bytes
      mask_data := g_memdup2 mask_data (gint_to_gsize (width * height * bytes)) }
  let draw := gimp_pattern_select_preview_update PreviewArea.inline_preview
    width height bytes mask_data
  let b2 : Button := if dialog_closing then { b1 with temp_callback := none } else b1
  (b2, draw ++
    [Effect.g_signal_emit_pattern_set
       [CArg.string pattern_name, CArg.int width, CArg.int height,
        CArg.int bytes, CArg.boolean dialog_closing],
     Effect.g_object_notify_pattern_name])

/-- `gimp_pattern_select_button_set_pattern`: with a session the request goes
to the session; without one the name (the argument when it is neither `NULL`
nor empty, else the repository's current pattern) is looked up and, when the
lookup returns `TRUE`, handed to the callback with `dialog_closing = FALSE`. -/
def gimp_pattern_select_button_set_pattern (env : Env) (button : Button)
    (pattern_name : Option CStr) : Button × List Effect :=
  match button.temp_callback with
  | some cb => (button, [Effect.gimp_patterns_set_popup cb pattern_name])
  | none =>
    let resolved : Option CStr × List Effect :=
      match pattern_name with
      | some (c :: cs) => (some (c :: cs), [])
      | _ => (env.gimp_context_get_pattern, [Effect.gimp_context_get_pattern])
    let name := resolved.1
    match env.gimp_pattern_get_pixels name with
    | some p =>
      let r := gimp_pattern_select_button_callback name
        p.width p.height p.bytes p.mask_data false button
      (r.1, resolved.2 ++ [Effect.gimp_pattern_get_pixels name] ++ r.2)
    | none => (button, resolved.2 ++ [Effect.gimp_pattern_get_pixels name])

/-- `gimp_pattern_select_button_clicked`: raise the session when there is
one, else open one and keep what `gimp_pattern_select_new` returns. -/
def gimp_pattern_select_button_clicked (env : Env) (button : Button) :
    Button × List Effect :=
  match button.temp_callback with
  | some cb => (button, [Effect.gimp_patterns_set_popup cb button.pattern_name])
  | none =>
    ({ button with
       temp_callback := env.gimp_pattern_select_new button.title button.pattern_name },
     [Effect.gimp_pattern_select_new button.title button.pattern_name])

/-- The glib macro
`CLAMP(x, low, high) = ((x) > (high)) ? (high) : (((x) < (low)) ? (low) : (x))`. -/
def CLAMP (x low high : Int) : Int :=
  if x > high then high else if x < low then low else x

/-- `gimp_pattern_select_button_close_popup`, a `g_clear_pointer` on the
popup with `gtk_widget_destroy`. -/
def gimp_pattern_select_button_close_popup (button : Button) : Button × List Effect :=
  match button.popup with
  | some _ => ({ button with popup := none }, [Effect.gtk_widget_destroy_popup])
  | none => (button, [])

/-- `gimp_pattern_select_button_open_popup`.  `/` of C truncates, hence
`Int.tdiv`. -/
def gimp_pattern_select_button_open_popup (env : Env) (button : Button)
    (x y : Int) : Button × List Effect :=
  let r := if button.popup.isSome then gimp_pattern_select_button_close_popup button
           else (button, [])
  let priv := r.1
  if priv.width ≤ CELL_SIZE ∧ priv.height ≤ CELL_SIZE then r
  else
    let x1 := env.x_org + x - Int.tdiv priv.width 2
    let y1 := env.y_org + y - Int.tdiv priv.height 2
    let x2 := CLAMP x1 env.workarea.x (env.workarea.x + env.workarea.width - priv.width)
    let y2 := CLAMP y1 env.workarea.y (env.workarea.y + env.workarea.height - priv.height)
    ({ priv with popup := some { x := x2, y := y2, width := priv.width, height := priv.height } },
     r.2 ++ [Effect.gtk_window_new_popup, Effect.gtk_window_move x2 y2] ++
       gimp_pattern_select_preview_update PreviewArea.popup_preview
         priv.width priv.height priv.bytes priv.mask_data)

/-- The events the inline preview distinguishes.  `x` and `y` are the
coordinates of the `GdkEventButton` as `open_popup` receives them, that is
after their conversion to `gint`. -/
inductive GdkEvent
  | GDK_BUTTON_PRESS (button : Nat) (x y : Int)
  | GDK_BUTTON_RELEASE (button : Nat) (x y : Int)
  | GDK_OTHER
  deriving DecidableEq, Repr

/-- `gimp_pattern_select_preview_events`. -/
def gimp_pattern_select_preview_events (env : Env) (event : GdkEvent)
    (button : Button) : Button × List Effect :=
  match button.mask_data with
  | none => (button, [])
  | some _ =>
    match event with
    | GdkEvent.GDK_BUTTON_PRESS bn x y =>
      if bn = 1 then
        let r := gimp_pattern_select_button_open_popup env button x y
        (r.1, Effect.gtk_grab_add :: r.2)
      else (button, [])
    | GdkEvent.GDK_BUTTON_RELEASE bn _ _ =>
      if bn = 1 then
        let r := gimp_pattern_select_button_close_popup button
        (r.1, Effect.gtk_grab_remove :: r.2)
      else (button, [])
    | GdkEvent.GDK_OTHER => (button, [])

/-- The C library's `isspace` in the "C" locale. -/
def isspace (c : Char) : Bool :=
  c.toNat = 32 || (9 ≤ c.toNat && c.toNat ≤ 13)

/-- The value of a digit character, for bases up to 16. -/
def digit_value (c : Char) : Option Nat :=
  if 48 ≤ c.toNat ∧ c.toNat ≤ 57 then some (c.toNat - 48)
  else if 97 ≤ c.toNat ∧ c.toNat ≤ 102 then some (c.toNat - 87)
  else if 65 ≤ c.toNat ∧ c.toNat ≤ 70 then some (c.toNat - 55)
  else none

/-- Whether `c` is a digit of the given base. -/
def is_digit (base : Nat) (c : Char) : Bool :=
  match digit_value c with
  | some v => decide (v < base)
  | none => false

/-- The number a run of digits denotes. -/
def digits_value (base : Nat) (ds : CStr) : Nat :=
  ds.foldl (fun acc c => acc * base + (digit_value c).getD 0) 0

/-- The digits of an integer input item after its sign, as the GNU C library
reads them: a leading `0` selects octal for `%i`, a following `x` or `X`
selects hexadecimal (for `%i` and `%p`) and is consumed, anything else is
decimal for `%i`; a run without any digit is no number.  `base0` is 0 for
`%i` and 16 for `%p`.  Returns the value and the unread rest. -/
def scan_unsigned (base0 : Nat) (s : CStr) : Option (Nat × CStr) :=
  match s with
  | [] => none
  | c :: t =>
    if c.toNat = 48 then
      match t with
      | [] => some (0, [])
      | x :: u =>
        if (x.toNat = 120 ∨ x.toNat = 88) ∧ (base0 = 0 ∨ base0 = 16) then
          some (digits_value 16 (u.takeWhile (is_digit 16)), u.dropWhile (is_digit 16))
        else
          let base := if base0 = 0 then 8 else base0
          some (digits_value base (t.takeWhile (is_digit base)), t.dropWhile (is_digit base))
    else
      let base := if base0 = 0 then 10 else base0
      let ds := (c :: t).takeWhile (is_digit base)
      if ds = [] then none
      else some (digits_value base ds, (c :: t).dropWhile (is_digit base))

/-- An integer input item with its optional sign; the value is what
`strtol` yields for a 64-bit `long`. -/
def scan_number (base0 : Nat) (s : CStr) : Option (Int × CStr) :=
  match s with
  | [] => none
  | c :: t =>
    if c.toNat = 45 then
      (scan_unsigned base0 t).map (fun r => (max (-(r.1 : Int)) (-(2 ^ 63)), r.2))
    else if c.toNat = 43 then
      (scan_unsigned base0 t).map (fun r => (min (r.1 : Int) (2 ^ 63 - 1), r.2))
    else
      (scan_unsigned base0 (c :: t)).map (fun r => (min (r.1 : Int) (2 ^ 63 - 1), r.2))

/-- Storing a `long` into an `int`: reduction to the 32-bit two's complement
range. -/
def long_to_gint (n : Int) : Int := (n + 2 ^ 31) % 2 ^ 32 - 2 ^ 31

/-- The C library's `tolower` in the "C" locale, on character codes. -/
def tolower (c : Char) : Nat :=
  if 65 ≤ c.toNat ∧ c.toNat ≤ 90 then c.toNat + 32 else c.toNat

/-- The `%p` directive of the GNU C library: a hexadecimal number with an
optional sign and `0x`, or, when no number is there, the text `(nil)`, which
is compared letter by letter through `tolower` and so matches in either
case. -/
def scan_pointer (s : CStr) : Option (Int × CStr) :=
  match scan_number 16 s with
  | some r => some r
  | none =>
    match s with
    | a :: b :: c :: d :: e :: rest =>
      if tolower a = 40 ∧ tolower b = 110 ∧ tolower c = 105 ∧ tolower d = 108 ∧
          tolower e = 41
      then some (0, rest) else none
    | _ => none

/-- What `sscanf (str, "%i:%p:%n", &pid, &unused, &name_offset)` leaves:
its return value, the value stored in `pid` (`none` while nothing was
stored) and `name_offset`, which starts as 0. -/
structure ScanResult where
  count : Int
  pid : Option Int
  name_offset : Int
  deriving DecidableEq, Repr

/-- The call `sscanf (str, "%i:%p:%n", ...)`: white space is skipped before
each conversion, the colons must match literally, `%n` stores the number of
characters read so far and does not count as a conversion; the end of the
input before the first conversion gives `EOF` (-1). -/
def sscanf_pid_ptr (str : CStr) : ScanResult :=
  let s0 := str.dropWhile isspace
  if s0 = [] then { count := -1, pid := none, name_offset := 0 }
  else
    match scan_number 0 s0 with
    | none => { count := 0, pid := none, name_offset := 0 }
    | some (v, s1) =>
      let pid := long_to_gint v
      match s1 with
      | [] => { count := 1, pid := some pid, name_offset := 0 }
      | c1 :: s2 =>
        if c1.toNat = 58 then
          match scan_pointer (s2.dropWhile isspace) with
          | none => { count := 1, pid := some pid, name_offset := 0 }
          | some (_, s3) =>
            match s3 with
            | [] => { count := 2, pid := some pid, name_offset := 0 }
            | c2 :: s4 =>
              if c2.toNat = 58 then
                { count := 2, pid := some pid,
                  name_offset := (str.length : Int) - (s4.length : Int) }
              else { count := 2, pid := some pid, name_offset := 0 }
        else { count := 1, pid := some pid, name_offset := 0 }

/-- The parts of a `GtkSelectionData` the drop handler reads. -/
structure GtkSelectionData where
  format : Int
  length : Int
  data : CStr
  deriving DecidableEq, Repr

/-- The glib function `g_strndup (str, n)`: at most `n` characters, up to the
first NUL. -/
def g_strndup (str : CStr) (n : Nat) : CStr :=
  (str.take n).takeWhile (fun c => c.toNat ≠ 0)

/-- `gimp_pattern_select_drag_data_received`. -/
def gimp_pattern_select_drag_data_received (env : Env) (button : Button)
    (selection : GtkSelectionData) : Button × List Effect :=
  let length := selection.length
  if selection.format ≠ 8 ∨ length < 1 then
    (button, [Effect.g_warning "Received invalid pattern data!"])
  else
    let str := g_strndup selection.data length.toNat
    if env.g_utf8_validate str then
      let r := sscanf_pid_ptr str
      if r.count ≥ 2 ∧ r.pid = some env.gimp_getpid ∧ r.name_offset > 0 then
        gimp_pattern_select_button_set_pattern env button
          (some (str.drop r.name_offset.toNat))
      else (button, [])
    else (button, [])

/-- What can happen to the widget: a click on the browse control, a
programmatic set, a drop, an event on the inline preview, and a result
reported by the session `session`. -/
inductive Event
  | clicked
  | set_pattern (pattern_name : Option CStr)
  | drag_data_received (selection : GtkSelectionData)
  | preview_event (event : GdkEvent)
  | session_callback (session : CStr) (pattern_name : Option CStr)
      (width height bytes : Int) (mask_data : Option Bytes) (dialog_closing : Bool)
  deriving DecidableEq, Repr

/-- The widget together with the sessions that are open in the application
and the calls made so far. -/
structure World where
  button : Button
  sessions : List CStr
  trace : List Effect
  deriving DecidableEq, Repr

/-- Modelled from the spec: the session side (`gimp_pattern_select_new` and
the dialog behind it) is not among the sources.  Per the SelectionSession
interface, `open` yields a session; so a list of calls opens one session for
each call of `gimp_pattern_select_new` that returns a handle. -/
def opened_sessions (env : Env) : List Effect → List CStr
  | [] => []
  | Effect.gimp_pattern_select_new title name :: es =>
    (env.gimp_pattern_select_new title name).toList ++ opened_sessions env es
  | _ :: es => opened_sessions env es

/-- One event.  The widget's part is the source function for the event.
Modelled from the spec: the session side is not among the sources; per the
SelectionSession interface a session reports results only while it is open,
and its report with `dialog_closing = TRUE` is its last, after which the
session is gone. -/
def step (env : Env) (w : World) (ev : Event) : World :=
  match ev with
  | Event.session_callback session name width height bytes mask_data dialog_closing =>
    if session ∈ w.sessions then
      let r := gimp_pattern_select_button_callback name width height bytes mask_data
        dialog_closing w.button
      { button := r.1
        sessions := if dialog_closing then w.sessions.erase session else w.sessions
        trace := w.trace ++ r.2 }
    else w
  | Event.clicked =>
    let r := gimp_pattern_select_button_clicked env w.button
    { button := r.1, sessions := w.sessions ++ opened_sessions env r.2, trace := w.trace ++ r.2 }
  | Event.set_pattern pattern_name =>
    let r := gimp_pattern_select_button_set_pattern env w.button pattern_name
    { button := r.1, sessions := w.sessions ++ opened_sessions env r.2, trace := w.trace ++ r.2 }
  | Event.drag_data_received selection =>
    let r := gimp_pattern_select_drag_data_received env w.button selection
    { button := r.1, sessions := w.sessions ++ opened_sessions env r.2, trace := w.trace ++ r.2 }
  | Event.preview_event event =>
    let r := gimp_pattern_select_preview_events env event w.button
    { button := r.1, sessions := w.sessions ++ opened_sessions env r.2, trace := w.trace ++ r.2 }

/-- A sequence of events, first to last. -/
def run (env : Env) (w : World) (evs : List Event) : World :=
  evs.foldl (step env) w

/-- An example repository and screen: the current pattern is `Pine`, the
patterns `Pine` (2x2, 3 bytes per pixel) and `mypattern` (1x2, 1 byte per
pixel) can be looked up, process 1234, a 1000x800 work area, the inline
preview at (900, 50). -/
def env0 : Env :=
  { gimp_context_get_pattern := some "Pine".toList
    gimp_pattern_get_pixels := fun name =>
      if name = some "Pine".toList then
        some { width := 2, height := 2, bytes := 3, mask_data_size := 12,
               mask_data := some [1, 2, 3, 4, 5, 6, 7, 8, 9, 10, 11, 12] }
      else if name = some "mypattern".toList then
        some { width := 1, height := 2, bytes := 1, mask_data_size := 2,
               mask_data := some [7, 9] }
      else none
    gimp_pattern_select_new := fun _ _ => some "temp-procedure-1".toList
    gimp_getpid := 1234
    g_utf8_validate := fun _ => true
    x_org := 900
    y_org := 50
    workarea := { x := 0, y := 0, width := 1000, height := 800 } }

/-- An example widget: the 200x200 gray pattern `Clouds` cached, no session,
no popup. -/
def button0 : Button :=
  { title := some "Pattern Selection".toList
    pattern_name := some "Clouds".toList
    width := 200
    height := 200
    bytes := 1
    mask_data := some (List.replicate 40000 0)
    popup := none
    temp_callback := none }

/-- The notifications among a list of calls: emissions of `pattern-set` and
property notifications for `pattern-name`. -/
def notifications : List Effect → List Effect
  | [] => []
  | Effect.g_signal_emit_pattern_set args :: es =>
    Effect.g_signal_emit_pattern_set args :: notifications es
  | Effect.g_object_notify_pattern_name :: es =>
    Effect.g_object_notify_pattern_name :: notifications es
  | _ :: es => notifications es

/-- The repository calls among a list of calls. -/
def repository_calls : List Effect → List Effect
  | [] => []
  | Effect.gimp_context_get_pattern :: es =>
    Effect.gimp_context_get_pattern :: repository_calls es
  | Effect.gimp_pattern_get_pixels name :: es =>
    Effect.gimp_pattern_get_pixels name :: repository_calls es
  | _ :: es => repository_calls es

/-- The draw calls among a list of calls. -/
def draw_calls : List Effect → List Effect
  | [] => []
  | Effect.gimp_preview_area_draw a x y w h t buf r :: es =>
    Effect.gimp_preview_area_draw a x y w h t buf r :: draw_calls es
  | _ :: es => draw_calls es

/-- The warnings among a list of calls. -/
def warnings : List Effect → List Effect
  | [] => []
  | Effect.g_warning msg :: es => Effect.g_warning msg :: warnings es
  | _ :: es => warnings es

/-- A pixel pointer as the callback expects it: not `NULL`, and the buffer
behind it holds exactly `width * height * bytes` bytes, a positive number
within the range of `gint`. -/
def pixels_well_formed (width height bytes : Int) (mask_data : Option Bytes) : Bool :=
  match mask_data with
  | none => false
  | some d =>
    decide (0 < width * height * bytes) && decide (width * height * bytes < 2 ^ 31) &&
      decide ((d.length : Int) = width * height * bytes)

/-- The name a set request stands for, in the words of the interface: the
given name, or the repository's current pattern when the name is absent or
empty. -/
def requested_name (env : Env) (pattern_name : Option CStr) : Option CStr :=
  if pattern_name = none ∨ pattern_name = some [] then env.gimp_context_get_pattern
  else pattern_name

/-- The declared type an argument of an emission has. -/
def CArg.type : CArg → GType
  | CArg.string _ => GType.G_TYPE_STRING
  | CArg.int _ => GType.G_TYPE_INT
  | CArg.pointer _ => GType.G_TYPE_POINTER
  | CArg.boolean _ => GType.G_TYPE_BOOLEAN

/-- The widget before any session was opened, with no session open in the
application and no call made. -/
def World.start (button : Button) : World :=
  { button := { button with temp_callback := none }, sessions := [], trace := [] }

/-- The text of a process id as `%d` prints it: decimal digits, the first
of them not `0`. -/
def decimal_text (ds : CStr) : Bool :=
  match ds with
  | [] => false
  | d :: t => decide (49 ≤ d.toNat ∧ d.toNat ≤ 57) && t.all (is_digit 10)

/-- The text of a pointer as `%p` prints it: `0x` and at least one
hexadecimal digit. -/
def pointer_text (ptr : CStr) : Bool :=
  match ptr with
  | z :: x :: h :: hs =>
    decide (z.toNat = 48) && decide (x.toNat = 120) && (h :: hs).all (is_digit 16)
  | _ => false

/-- The positions passed to `gtk_window_move` among a list of calls. -/
def window_moves : List Effect → List (Int × Int)
  | [] => []
  | Effect.gtk_window_move x y :: es => (x, y) :: window_moves es
  | _ :: es => window_moves es

/-- Every successful repository lookup delivers well-formed pixels. -/
def lookups_well_formed (env : Env) : Prop :=
  ∀ name p, env.gimp_pattern_get_pixels name = some p →
    pixels_well_formed p.width p.height p.bytes p.mask_data = true

/-- The pixels an event delivers, if it delivers any, are well-formed. -/
def Event.delivery_well_formed : Event → Bool
  | Event.session_callback _ _ width height bytes mask_data _ =>
    pixels_well_formed width height bytes mask_data
  | _ => true

/-- The property ids `PROP_TITLE` and `PROP_PATTERN_NAME` of the enumeration
that starts with `PROP_0`. -/
def PROP_TITLE : Nat := 1

/-- See `PROP_TITLE`. -/
def PROP_PATTERN_NAME : Nat := 2

/-- The default of the `title` property, untranslated. -/
def default_title : CStr := "Pattern Selection".toList

/-- Modelled from the spec: what `gimp_pattern_get_pixels` leaves in its
out-parameters when it fails is not among the sources.  Per the spec the
widget is then "constructed with an empty/unset image", that is size 0 and no
pixels, which is also what the zero-filled instance structure holds before
the call. -/
def failed_lookup_pixels : PatternPixels :=
  { width := 0, height := 0, bytes := 0, mask_data_size := 0, mask_data := none }

/-- `gimp_pattern_select_button_init`: the name is the repository's current
pattern and the size and pixels are what its lookup stores; the result of the
lookup is not tested.  No session and no popup exist yet. -/
def gimp_pattern_select_button_init (env : Env) : Button × List Effect :=
  let pattern_name := env.gimp_context_get_pattern
  let calls := [Effect.gimp_context_get_pattern, Effect.gimp_pattern_get_pixels pattern_name]
  let p :=
    match env.gimp_pattern_get_pixels pattern_name with
    | some p => p
    | none => failed_lookup_pixels
  ({ title := none, pattern_name := pattern_name
     width := p.width, height := p.height, bytes := p.bytes, mask_data := p.mask_data
     popup := none, temp_callback := none }, calls)

/-- `gimp_pattern_select_button_set_property`. -/
def gimp_pattern_select_button_set_property (env : Env) (button : Button)
    (property_id : Nat) (value : Option CStr) : Button × List Effect :=
  if property_id = PROP_TITLE then ({ button with title := value }, [])
  else if property_id = PROP_PATTERN_NAME then
    gimp_pattern_select_button_set_pattern env button value
  else (button, [Effect.g_warning "invalid property id"])

/-- `gimp_pattern_select_button_new`, with `g_object_new` unfolded: the
instance is initialised, then the construct-only property `title` is set (to
its default when no title is passed), then the property `pattern-name`. -/
def gimp_pattern_select_button_new (env : Env) (title pattern_name : Option CStr) :
    Button × List Effect :=
  let r0 := gimp_pattern_select_button_init env
  let r1 := gimp_pattern_select_button_set_property env r0.1 PROP_TITLE
    (match title with
     | some t => some t
     | none => some default_title)
  let r2 := gimp_pattern_select_button_set_property env r1.1 PROP_PATTERN_NAME pattern_name
  (r2.1, r0.2 ++ r1.2 ++ r2.2)

/-- The names looked up in the repository among a list of calls. -/
def pixel_lookups : List Effect → List (Option CStr)
  | [] => []
  | Effect.gimp_pattern_get_pixels name :: es => name :: pixel_lookups es
  | _ :: es => pixel_lookups es

/-- The image type that stands for a number of bytes per pixel, in the words
of the interface: 1 is gray, 2 gray with alpha, 3 RGB, 4 RGBA, and no other
number is displayable. -/
def image_type_of_bytes (bytes : Int) : Option GimpImageType :=
  if bytes = 1 then some GimpImageType.GIMP_GRAY_IMAGE
  else if bytes = 2 then some GimpImageType.GIMP_GRAYA_IMAGE
  else if bytes = 3 then some GimpImageType.GIMP_RGB_IMAGE
  else if bytes = 4 then some GimpImageType.GIMP_RGBA_IMAGE
  else none

end GimpPatternSelect

/-!
# Item visibility (`app/actions/drawable-commands.c`)

The callback of the action that shows or hides the selected drawables, as a
function from the image and the selection to the image afterwards and the
calls made.
-/

namespace DrawableCommands

/-- An item (drawable, layer, layer mask) of the image, named by its address. -/
abbrev Item := Nat

/-- What `drawable_visible_cmd_callback` reads of the image and its items:
* `visible`: the answer of `gimp_item_get_visible`;
* `is_layer_mask`: the test `GIMP_IS_LAYER_MASK`;
* `mask_layer`: the answer of `gimp_layer_mask_get_layer`;
* `compressible_undo_item`: the item of the undo that
  `gimp_image_undo_can_compress (image, GIMP_TYPE_ITEM_UNDO,
  GIMP_UNDO_ITEM_VISIBILITY)` returns, `none` when it returns `NULL`. -/
structure Image where
  visible : Item → Bool
  is_layer_mask : Item → Bool
  mask_layer : Item → Item
  compressible_undo_item : Option Item

/-- The calls of `drawable_visible_cmd_callback` that change the image or
its undo stack, in the order they are made. -/
inductive Call
  | gimp_image_undo_group_start
  | gimp_item_set_visible (item : Item) (visible : Bool) (push_undo : Bool)
  | gimp_image_undo_group_end
  | gimp_image_flush
  deriving DecidableEq, Repr

/-- The function `gimp_item_set_visible`, whose code is outside the file,
taken as the setter that goes with the getter `gimp_item_get_visible`: the
item gets the visibility, every other item keeps its own. -/
def gimp_item_set_visible (image : Image) (item : Item) (visible : Bool) : Image :=
  { image with visible := fun i => if i = item then visible else image.visible i }

/-- The first loop of `drawable_visible_cmd_callback`: whether it returns,
which it does at the first drawable that is visible when `visible` is asked
for. -/
def already_visible (image : Image) (visible : Bool) : List Item → Bool
  | [] => false
  | d :: ds => if visible && image.visible d then true else already_visible image visible ds

/-- The second loop: `iter` when the loop ends, that is the list from the
first drawable on whose visibility differs from `visible`, empty (`NULL`)
when there is none. -/
def first_differing (image : Image) (visible : Bool) : List Item → List Item
  | [] => []
  | d :: ds =>
    if visible != image.visible d then d :: ds else first_differing image visible ds

/-- The third loop: `gimp_item_set_visible (iter->data, visible, push_undo)`
from `iter` to the end of the list. -/
def set_visible_from (image : Image) (visible push_undo : Bool) :
    List Item → Image × List Call
  | [] => (image, [])
  | d :: ds =>
    let r := set_visible_from (gimp_item_set_visible image d visible) visible push_undo ds
    (r.1, Call.gimp_item_set_visible d visible push_undo :: r.2)

/-- `drawable_visible_cmd_callback` on the selected drawables of the image
(`return_if_no_drawables` returns when there is none) and the boolean of the
action. -/
def drawable_visible_cmd_callback (image : Image) (selected : List Item)
    (visible : Bool) : Image × List Call :=
  match selected with
  | [] => (image, [])
  | first :: rest =>
    let drawables :=
      if image.is_layer_mask first then [image.mask_layer first] else first :: rest
    if already_visible image visible drawables then (image, [])
    else
      match first_differing image visible drawables with
      | [] => (image, [])
      | d :: iter =>
        let push_undo : Bool :=
          if drawables.length = 1 then
            (if image.compressible_undo_item = drawables.head? then false else true)
          else true
        let start := if drawables.length = 1 then [] else [Call.gimp_image_undo_group_start]
        let r := set_visible_from image visible push_undo (d :: iter)
        let stop := if drawables.length ≠ 1 then [Call.gimp_image_undo_group_end] else []
        (r.1, start ++ r.2 ++ stop ++ [Call.gimp_image_flush])

/-- The drawables the callback works on: the owning layer alone when the
first selected drawable is a layer mask, else the selected drawables. -/
def effective_drawables (image : Image) (first : Item) (rest : List Item) : List Item :=
  if image.is_layer_mask first then [image.mask_layer first] else first :: rest

/-- The `push_undo` arguments of the calls of `gimp_item_set_visible`. -/
def push_undo_flags : List Call → List Bool
  | [] => []
  | Call.gimp_item_set_visible _ _ push_undo :: cs => push_undo :: push_undo_flags cs
  | _ :: cs => push_undo_flags cs

/-- An example image: items 1 and 3 are visible, 2 and 4 are not, item 9 is
the mask of layer 4, and the undo that can be compressed is for item 2. -/
def image0 : Image :=
  { visible := fun i => i = 1 || i = 3
    is_layer_mask := fun i => i = 9
    mask_layer := fun _ => 4
    compressible_undo_item := some 2 }

end DrawableCommands

namespace GimpPatternSelect

/-! ## Lemmas -/

/-- The copy of a well-formed pixel buffer is the buffer. -/
theorem g_memdup2_well_formed (width height bytes : Int) (mask_data : Option Bytes)
    (h : pixels_well_formed width height bytes mask_data = true) :
    g_memdup2 mask_data (gint_to_gsize (width * height * bytes)) = mask_data := by
  cases mask_data with
  | none => simp [pixels_well_formed] at h
  | some d =>
    simp only [pixels_well_formed, Bool.and_eq_true, decide_eq_true_eq] at h
    obtain ⟨⟨hpos, hlt⟩, hlen⟩ := h
    have hsz : gint_to_gsize (width * height * bytes) = d.length := by
      unfold gint_to_gsize
      rw [← hlen]
      have : (d.length : Int) < 2 ^ 64 := by omega
      omega
    have hne : d.length ≠ 0 := by omega
    simp [g_memdup2, hsz, hne]

/-- The name `gimp_pattern_select_button_set_pattern` looks up is the
requested name; the repository is asked for its current pattern exactly when
the argument is `NULL` or empty. -/
theorem set_pattern_resolved (env : Env) (pattern_name : Option CStr) :
    (match pattern_name with
      | some (c :: cs) => ((some (c :: cs) : Option CStr), ([] : List Effect))
      | _ => (env.gimp_context_get_pattern, [Effect.gimp_context_get_pattern]))
    = (requested_name env pattern_name,
       if pattern_name = none ∨ pattern_name = some [] then [Effect.gimp_context_get_pattern]
       else []) := by
  rcases pattern_name with _ | _ | ⟨c, cs⟩ <;> simp [requested_name]

/-- The sessions opened by two lists of calls, one after the other. -/
theorem opened_sessions_append (env : Env) (es fs : List Effect) :
    opened_sessions env (es ++ fs) = opened_sessions env es ++ opened_sessions env fs := by
  induction es with
  | nil => rfl
  | cons e es ih => cases e <;> simp [opened_sessions, ih]

/-- A preview update opens no session. -/
theorem opened_sessions_preview_update (env : Env) (area : PreviewArea)
    (width height bytes : Int) (mask_data : Option Bytes) :
    opened_sessions env
      (gimp_pattern_select_preview_update area width height bytes mask_data) = [] := by
  unfold gimp_pattern_select_preview_update
  split_ifs <;> rfl

/-- The callback opens no session. -/
theorem opened_sessions_callback (env : Env) (pattern_name : Option CStr)
    (width height bytes : Int) (mask_data : Option Bytes) (dialog_closing : Bool)
    (button : Button) :
    opened_sessions env (gimp_pattern_select_button_callback pattern_name width height
      bytes mask_data dialog_closing button).2 = [] := by
  simp [gimp_pattern_select_button_callback, opened_sessions_append,
    opened_sessions_preview_update, opened_sessions]

/-- Setting the pattern opens no session and keeps the session reference. -/
theorem set_pattern_sessions (env : Env) (button : Button) (pattern_name : Option CStr) :
    opened_sessions env
      (gimp_pattern_select_button_set_pattern env button pattern_name).2 = [] ∧
    (gimp_pattern_select_button_set_pattern env button pattern_name).1.temp_callback =
      button.temp_callback := by
  unfold gimp_pattern_select_button_set_pattern
  cases htc : button.temp_callback with
  | some cb => simp [opened_sessions, htc]
  | none =>
    simp only [set_pattern_resolved]
    cases hl : env.gimp_pattern_get_pixels (requested_name env pattern_name) with
    | none =>
      simp only [opened_sessions_append, htc]
      split_ifs <;> simp [opened_sessions]
    | some p =>
      simp only [opened_sessions_append, opened_sessions_callback]
      refine ⟨?_, ?_⟩
      · split_ifs <;> simp [opened_sessions]
      · simp [gimp_pattern_select_button_callback, htc]

/-- A drop opens no session and keeps the session reference. -/
theorem drag_data_received_sessions (env : Env) (button : Button)
    (selection : GtkSelectionData) :
    opened_sessions env
      (gimp_pattern_select_drag_data_received env button selection).2 = [] ∧
    (gimp_pattern_select_drag_data_received env button selection).1.temp_callback =
      button.temp_callback := by
  unfold gimp_pattern_select_drag_data_received
  simp only []
  split_ifs
  · exact ⟨rfl, rfl⟩
  · exact set_pattern_sessions env button _
  · exact ⟨rfl, rfl⟩
  · exact ⟨rfl, rfl⟩

/-- Closing the popup opens no session and keeps the session reference. -/
theorem close_popup_sessions (env : Env) (button : Button) :
    opened_sessions env (gimp_pattern_select_button_close_popup button).2 = [] ∧
    (gimp_pattern_select_button_close_popup button).1.temp_callback =
      button.temp_callback := by
  unfold gimp_pattern_select_button_close_popup
  cases button.popup <;> exact ⟨rfl, rfl⟩

/-- Opening the popup opens no session and keeps the session reference. -/
theorem open_popup_sessions (env : Env) (button : Button) (x y : Int) :
    opened_sessions env (gimp_pattern_select_button_open_popup env button x y).2 = [] ∧
    (gimp_pattern_select_button_open_popup env button x y).1.temp_callback =
      button.temp_callback := by
  have hc := close_popup_sessions env button
  unfold gimp_pattern_select_button_open_popup
  simp only []
  split_ifs <;>
    simp [opened_sessions_append, opened_sessions_preview_update, opened_sessions, hc.1, hc.2]

/-- An event on the inline preview opens no session and keeps the session
reference. -/
theorem preview_events_sessions (env : Env) (event : GdkEvent) (button : Button) :
    opened_sessions env (gimp_pattern_select_preview_events env event button).2 = [] ∧
    (gimp_pattern_select_preview_events env event button).1.temp_callback =
      button.temp_callback := by
  have ho := open_popup_sessions env button
  have hc := close_popup_sessions env button
  unfold gimp_pattern_select_preview_events
  cases button.mask_data with
  | none => exact ⟨rfl, rfl⟩
  | some d =>
    cases event with
    | GDK_BUTTON_PRESS bn x y =>
      by_cases hb : bn = 1
      · simp [hb, opened_sessions, ho x y]
      · simp [hb, opened_sessions]
    | GDK_BUTTON_RELEASE bn x y =>
      by_cases hb : bn = 1
      · simp [hb, opened_sessions, hc]
      · simp [hb, opened_sessions]
    | GDK_OTHER => exact ⟨rfl, rfl⟩

/-- One event keeps the open sessions equal to the session the widget holds. -/
theorem step_sessions (env : Env) (w : World) (ev : Event)
    (h : w.sessions = w.button.temp_callback.toList) :
    (step env w ev).sessions = (step env w ev).button.temp_callback.toList := by
  cases ev with
  | clicked =>
    simp only [step, gimp_pattern_select_button_clicked]
    cases htc : w.button.temp_callback with
    | some cb => simp [opened_sessions, h, htc]
    | none => simp [opened_sessions, h, htc]
  | set_pattern pattern_name =>
    have hs := set_pattern_sessions env w.button pattern_name
    simp [step, hs.1, hs.2, h]
  | drag_data_received selection =>
    have hs := drag_data_received_sessions env w.button selection
    simp [step, hs.1, hs.2, h]
  | preview_event event =>
    have hs := preview_events_sessions env event w.button
    simp [step, hs.1, hs.2, h]
  | session_callback session name width height bytes mask_data dialog_closing =>
    by_cases hmem : session ∈ w.sessions
    · cases htc : w.button.temp_callback with
      | none => simp [h, htc] at hmem
      | some cb =>
        have hcb : session = cb := by simpa [h, htc] using hmem
        cases dialog_closing
        · simp [step, gimp_pattern_select_button_callback, h, htc, hcb]
        · simp [step, gimp_pattern_select_button_callback, h, htc, hcb]
    · simp only [step, hmem, if_false]
      exact h

/-- Every sequence of events keeps the open sessions equal to the session
the widget holds. -/
theorem run_sessions (env : Env) (evs : List Event) (w : World)
    (h : w.sessions = w.button.temp_callback.toList) :
    (run env w evs).sessions = (run env w evs).button.temp_callback.toList := by
  induction evs generalizing w with
  | nil => exact h
  | cons ev evs ih => exact ih (step env w ev) (step_sessions env w ev h)

/-- The decimal digits are the characters `0` to `9`. -/
theorem is_digit_ten (c : Char) : is_digit 10 c = true ↔ 48 ≤ c.toNat ∧ c.toNat ≤ 57 := by
  unfold is_digit digit_value
  split_ifs with h1 h2 h3 <;> simp <;> omega

/-- The directive `%i` on a process id followed by a colon reads the whole id in base ten and stops at the colon. -/
theorem scan_number_decimal (ds rest : CStr) (h : decimal_text ds = true) :
    scan_number 0 (ds ++ ':' :: rest) =
      some (min (digits_value 10 ds : Int) (2 ^ 63 - 1), ':' :: rest) := by
  cases ds with
  | nil => simp [decimal_text] at h
  | cons d t =>
    simp only [decimal_text, Bool.and_eq_true, decide_eq_true_eq, List.all_eq_true] at h
    obtain ⟨⟨h1, h2⟩, ht⟩ := h
    have hd : is_digit 10 d = true := (is_digit_ten d).2 ⟨by omega, h2⟩
    have hall : ∀ a ∈ d :: t, is_digit 10 a = true := by
      intro a ha
      rcases List.mem_cons.1 ha with rfl | ha
      · exact hd
      · exact ht a ha
    have hcolon : ¬ (is_digit 10 ':' = true) := by decide
    have h45 : d.toNat ≠ 45 := by omega
    have h43 : d.toNat ≠ 43 := by omega
    have h48 : d.toNat ≠ 48 := by omega
    have htw : List.takeWhile (is_digit 10) (d :: (t ++ ':' :: rest)) = d :: t := by
      rw [← List.cons_append, List.takeWhile_append_of_pos hall,
        List.takeWhile_cons_of_neg hcolon, List.append_nil]
    have hdw : List.dropWhile (is_digit 10) (d :: (t ++ ':' :: rest)) = ':' :: rest := by
      rw [← List.cons_append, List.dropWhile_append_of_pos hall,
        List.dropWhile_cons_of_neg hcolon]
    simp only [List.cons_append, scan_number, h45, h43, if_false, scan_unsigned, h48,
      if_true, htw, hdw]
    simp

/-- The directive `%p` on a pointer text followed by a colon stops at the colon. -/
theorem scan_pointer_text (ptr rest : CStr) (h : pointer_text ptr = true) :
    (scan_pointer (ptr ++ ':' :: rest)).map Prod.snd = some (':' :: rest) := by
  match ptr, h with
  | z :: x :: c :: hs, h =>
    simp only [pointer_text, Bool.and_eq_true, decide_eq_true_eq] at h
    obtain ⟨⟨hz, hx⟩, hall⟩ := h
    have hall2 : ∀ a ∈ c :: hs, is_digit 16 a = true := by
      simpa [List.all_eq_true] using hall
    have hcolon : ¬ (is_digit 16 ':' = true) := by decide
    have hdw : List.dropWhile (is_digit 16) (c :: (hs ++ ':' :: rest)) = ':' :: rest := by
      rw [← List.cons_append, List.dropWhile_append_of_pos hall2,
        List.dropWhile_cons_of_neg hcolon]
    have h45 : z.toNat ≠ 45 := by omega
    have h43 : z.toNat ≠ 43 := by omega
    simp only [List.cons_append, scan_pointer, scan_number, h45, h43, if_false,
      scan_unsigned, hz, hx, if_true, hdw]
    simp


/-- No character from `0` on is white space. -/
theorem isspace_false_of_ge (c : Char) (h : 48 ≤ c.toNat) : isspace c = false := by
  unfold isspace
  simp
  omega

/-- On a payload `<pid>:<ptr>:<name>` the scan converts both fields and the name offset is the length of the text before the name. -/
theorem sscanf_payload (ds ptr name : CStr) (hd : decimal_text ds = true)
    (hp : pointer_text ptr = true) :
    sscanf_pid_ptr (ds ++ [':'] ++ ptr ++ [':'] ++ name) =
      { count := 2
        pid := some (long_to_gint (min (digits_value 10 ds : Int) (2 ^ 63 - 1)))
        name_offset := ((ds.length + 1 + ptr.length + 1 : Nat) : Int) } := by
  have hnum := scan_number_decimal ds (ptr ++ ':' :: name) hd
  have hptr := scan_pointer_text ptr name hp
  have hstr : ds ++ [':'] ++ ptr ++ [':'] ++ name = ds ++ ':' :: (ptr ++ ':' :: name) := by
    simp
  rw [hstr]
  have hs0 : List.dropWhile isspace (ds ++ ':' :: (ptr ++ ':' :: name)) =
      ds ++ ':' :: (ptr ++ ':' :: name) := by
    cases ds with
    | nil => simp [decimal_text] at hd
    | cons d t =>
      simp only [decimal_text, Bool.and_eq_true, decide_eq_true_eq] at hd
      have : ¬ (isspace d = true) := by
        rw [isspace_false_of_ge d (by omega)]; simp
      rw [List.cons_append, List.dropWhile_cons_of_neg this]
  have hs2 : List.dropWhile isspace (ptr ++ ':' :: name) = ptr ++ ':' :: name := by
    match ptr, hp with
    | z :: x :: c :: hs, hp =>
      simp only [pointer_text, Bool.and_eq_true, decide_eq_true_eq] at hp
      have : ¬ (isspace z = true) := by
        rw [isspace_false_of_ge z (by omega)]; simp
      rw [List.cons_append, List.dropWhile_cons_of_neg this]
  have hne : ds ++ ':' :: (ptr ++ ':' :: name) ≠ [] := by
    cases ds <;> simp
  cases hsp : scan_pointer (ptr ++ ':' :: name) with
  | none => simp [hsp] at hptr
  | some r =>
    obtain ⟨v, s3⟩ := r
    have hs3 : s3 = ':' :: name := by simpa [hsp] using hptr
    subst hs3
    simp only [sscanf_pid_ptr, hs0, hne, if_false, hnum, hs2, hsp]
    simp
    omega


/-- A text without NUL is copied whole by `g_strndup` with its own length. -/
theorem g_strndup_all (data : CStr) (h : ∀ c ∈ data, c.toNat ≠ 0) :
    g_strndup data data.length = data := by
  unfold g_strndup
  rw [List.take_length, List.takeWhile_eq_self_iff]
  intro c hc
  simpa using h c hc

/-- A value below `2 ^ 31` is stored unchanged. -/
theorem long_to_gint_small (v : Nat) (h : v < 2 ^ 31) :
    long_to_gint (min (v : Int) (2 ^ 63 - 1)) = (v : Int) := by
  unfold long_to_gint
  have h1 : min (v : Int) (2 ^ 63 - 1) = (v : Int) := by
    apply min_eq_left
    omega
  rw [h1]
  omega

/-- A well-formed payload is handled as a set request for its name when its process id is the current one, and dropped otherwise. -/
theorem drag_payload_accept (env : Env) (button : Button) (selection : GtkSelectionData)
    (ds ptr name : CStr)
    (hformat : selection.format = 8)
    (hdata : selection.data = ds ++ [':'] ++ ptr ++ [':'] ++ name)
    (hlength : selection.length = (selection.data.length : Int))
    (hnul : ∀ c ∈ selection.data, c.toNat ≠ 0)
    (hvalid : env.g_utf8_validate selection.data = true)
    (hds : decimal_text ds = true) (hrange : digits_value 10 ds < 2 ^ 31)
    (hptr : pointer_text ptr = true) :
    gimp_pattern_select_drag_data_received env button selection =
      (if (digits_value 10 ds : Int) = env.gimp_getpid then
        gimp_pattern_select_button_set_pattern env button (some name)
       else (button, [])) := by
  have hstr : g_strndup selection.data selection.length.toNat = selection.data := by
    rw [hlength, Int.toNat_ofNat]
    exact g_strndup_all selection.data hnul
  have hpos : ¬ (selection.length < 1) := by
    rw [hlength, hdata]
    simp
    omega
  have hscan := sscanf_payload ds ptr name hds hptr
  have hdrop : List.drop (ds.length + 1 + ptr.length + 1)
      (ds ++ [':'] ++ ptr ++ [':'] ++ name) = name := by
    apply List.drop_left'
    simp
    omega
  unfold gimp_pattern_select_drag_data_received
  simp only [hformat, hpos, hstr, hvalid, ne_eq, not_true_eq_false, or_self, if_false,
    if_true]
  rw [hdata, hscan]
  simp only [long_to_gint_small _ hrange, Int.toNat_ofNat, hdrop]
  by_cases hpid : (digits_value 10 ds : Int) = env.gimp_getpid
  · simp [hpid]
    intro h
    omega
  · simp [hpid]

/-- A payload whose two leading fields do not both parse, or whose name
offset is not positive, is dropped. -/
theorem drag_payload_reject (env : Env) (button : Button) (selection : GtkSelectionData)
    (hformat : selection.format = 8) (hlength : 1 ≤ selection.length)
    (hscan : (sscanf_pid_ptr (g_strndup selection.data selection.length.toNat)).count < 2 ∨
      (sscanf_pid_ptr (g_strndup selection.data selection.length.toNat)).name_offset ≤ 0) :
    gimp_pattern_select_drag_data_received env button selection = (button, []) := by
  have hpos : ¬ (selection.length < 1) := by omega
  unfold gimp_pattern_select_drag_data_received
  simp only [hformat, hpos, ne_eq, not_true_eq_false, or_self, if_false]
  split_ifs with hv hacc
  · omega
  · rfl
  · rfl

/-- Without a session, a set request for a non-empty name whose lookup
succeeds caches that name. -/
theorem set_pattern_caches_name (env : Env) (button : Button) (name : CStr)
    (hsession : button.temp_callback = none) (hname : name ≠ [])
    (hlookup : (env.gimp_pattern_get_pixels (some name)).isSome = true) :
    gimp_pattern_select_button_get_pattern
      (gimp_pattern_select_button_set_pattern env button (some name)).1 = some name := by
  have hreq : requested_name env (some name) = some name := by
    simp [requested_name, hname]
  obtain ⟨p, hp⟩ := Option.isSome_iff_exists.1 hlookup
  simp only [gimp_pattern_select_button_set_pattern, hsession, set_pattern_resolved, hreq,
    hp, gimp_pattern_select_button_callback, gimp_pattern_select_button_get_pattern]
  simp

/-- The popup after `gimp_pattern_select_button_open_popup`: none for a
pattern within the cell, else one of the size of the pattern at the clamped
position. -/
theorem open_popup_popup (env : Env) (button : Button) (x y : Int) :
    (gimp_pattern_select_button_open_popup env button x y).1.popup =
      (if button.width ≤ CELL_SIZE ∧ button.height ≤ CELL_SIZE then none
       else some
        { x := CLAMP (env.x_org + x - Int.tdiv button.width 2) env.workarea.x
                (env.workarea.x + env.workarea.width - button.width)
          y := CLAMP (env.y_org + y - Int.tdiv button.height 2) env.workarea.y
                (env.workarea.y + env.workarea.height - button.height)
          width := button.width
          height := button.height }) := by
  unfold gimp_pattern_select_button_open_popup gimp_pattern_select_button_close_popup
  cases hp : button.popup with
  | none => simp only [Option.isSome_none]; split_ifs <;> simp_all
  | some q => simp only [Option.isSome_some]; split_ifs <;> simp_all

/-- The positions moved to by two lists of calls, one after the other. -/
theorem window_moves_append (es fs : List Effect) :
    window_moves (es ++ fs) = window_moves es ++ window_moves fs := by
  induction es with
  | nil => rfl
  | cons e es ih => cases e <;> simp [window_moves, ih]

/-- A preview update moves no window. -/
theorem window_moves_preview_update (area : PreviewArea) (width height bytes : Int)
    (mask_data : Option Bytes) :
    window_moves
      (gimp_pattern_select_preview_update area width height bytes mask_data) = [] := by
  unfold gimp_pattern_select_preview_update
  split_ifs <;> rfl

/-- The one `gtk_window_move` of `gimp_pattern_select_button_open_popup` goes
to the clamped position; there is none for a pattern within the cell. -/
theorem open_popup_moves (env : Env) (button : Button) (x y : Int) :
    window_moves (gimp_pattern_select_button_open_popup env button x y).2 =
      (if button.width ≤ CELL_SIZE ∧ button.height ≤ CELL_SIZE then []
       else
        [(CLAMP (env.x_org + x - Int.tdiv button.width 2) env.workarea.x
            (env.workarea.x + env.workarea.width - button.width),
          CLAMP (env.y_org + y - Int.tdiv button.height 2) env.workarea.y
            (env.workarea.y + env.workarea.height - button.height))]) := by
  unfold gimp_pattern_select_button_open_popup gimp_pattern_select_button_close_popup
  cases hp : button.popup with
  | none =>
    simp only [Option.isSome_none]
    split_ifs <;>
      simp_all [window_moves_append, window_moves_preview_update, window_moves]
  | some q =>
    simp only [Option.isSome_some]
    split_ifs <;>
      simp_all [window_moves_append, window_moves_preview_update, window_moves]

/-- With cached pixels a primary-button press does to the widget what
`gimp_pattern_select_button_open_popup` does. -/
theorem press_with_pixels (env : Env) (button : Button) (x y : Int)
    (h : button.mask_data.isSome = true) :
    (gimp_pattern_select_preview_events env (GdkEvent.GDK_BUTTON_PRESS 1 x y) button).1 =
      (gimp_pattern_select_button_open_popup env button x y).1 := by
  unfold gimp_pattern_select_preview_events
  cases hm : button.mask_data with
  | none => simp [hm] at h
  | some d => simp

/-- Without cached pixels the inline preview ignores every event. -/
theorem events_without_pixels (env : Env) (event : GdkEvent) (button : Button)
    (h : button.mask_data = none) :
    gimp_pattern_select_preview_events env event button = (button, []) := by
  unfold gimp_pattern_select_preview_events
  simp [h]

/-- With cached pixels a primary-button release removes the grab and closes
the popup. -/
theorem release_with_pixels (env : Env) (button : Button) (x y : Int)
    (h : button.mask_data.isSome = true) :
    gimp_pattern_select_preview_events env (GdkEvent.GDK_BUTTON_RELEASE 1 x y) button =
      ((gimp_pattern_select_button_close_popup button).1,
       Effect.gtk_grab_remove :: (gimp_pattern_select_button_close_popup button).2) := by
  unfold gimp_pattern_select_preview_events
  cases hm : button.mask_data with
  | none => simp [hm] at h
  | some d => simp

/-- Closing the popup clears the popup field, changes nothing else and
raises no notification. -/
theorem close_popup_result (button : Button) :
    (gimp_pattern_select_button_close_popup button).1 = { button with popup := none } ∧
    notifications (gimp_pattern_select_button_close_popup button).2 = [] := by
  unfold gimp_pattern_select_button_close_popup
  cases hp : button.popup with
  | none =>
    refine ⟨?_, rfl⟩
    cases button
    simp_all
  | some p => exact ⟨rfl, rfl⟩

/-- The callback with well-formed pixels caches them and keeps the popup. -/
theorem callback_pixels (pattern_name : Option CStr) (width height bytes : Int)
    (mask_data : Option Bytes) (dialog_closing : Bool) (button : Button)
    (h : pixels_well_formed width height bytes mask_data = true) :
    (gimp_pattern_select_button_callback pattern_name width height bytes mask_data
      dialog_closing button).1.popup = button.popup ∧
    (gimp_pattern_select_button_callback pattern_name width height bytes mask_data
      dialog_closing button).1.mask_data.isSome = true := by
  have hmem := g_memdup2_well_formed width height bytes mask_data h
  have hsome : mask_data.isSome = true := by
    cases mask_data with
    | none => simp [pixels_well_formed] at h
    | some d => rfl
  simp only [gimp_pattern_select_button_callback, hmem]
  cases dialog_closing <;> exact ⟨rfl, hsome⟩

/-- With a repository that delivers well-formed pixels, a set request keeps
the popup and does not lose the cached pixels. -/
theorem set_pattern_pixels (env : Env) (button : Button) (pattern_name : Option CStr)
    (henv : lookups_well_formed env) :
    (gimp_pattern_select_button_set_pattern env button pattern_name).1.popup =
      button.popup ∧
    (button.mask_data.isSome = true →
      (gimp_pattern_select_button_set_pattern env button pattern_name).1.mask_data.isSome =
        true) := by
  unfold gimp_pattern_select_button_set_pattern
  cases htc : button.temp_callback with
  | some cb => exact ⟨rfl, id⟩
  | none =>
    simp only [set_pattern_resolved]
    cases hl : env.gimp_pattern_get_pixels (requested_name env pattern_name) with
    | none => exact ⟨rfl, id⟩
    | some p =>
      have hc := callback_pixels (requested_name env pattern_name) p.width p.height p.bytes
        p.mask_data false button (henv _ p hl)
      exact ⟨hc.1, fun _ => hc.2⟩

/-- With a repository that delivers well-formed pixels, a drop keeps the
popup and does not lose the cached pixels. -/
theorem drag_data_received_pixels (env : Env) (button : Button)
    (selection : GtkSelectionData) (henv : lookups_well_formed env) :
    (gimp_pattern_select_drag_data_received env button selection).1.popup =
      button.popup ∧
    (button.mask_data.isSome = true →
      (gimp_pattern_select_drag_data_received env button selection).1.mask_data.isSome =
        true) := by
  unfold gimp_pattern_select_drag_data_received
  simp only []
  split_ifs
  · exact ⟨rfl, id⟩
  · exact set_pattern_pixels env button _ henv
  · exact ⟨rfl, id⟩
  · exact ⟨rfl, id⟩

/-- Closing the popup keeps the cached pixels. -/
theorem close_popup_pixels (button : Button) :
    (gimp_pattern_select_button_close_popup button).1.mask_data = button.mask_data := by
  rw [(close_popup_result button).1]

/-- Opening the popup keeps the cached pixels. -/
theorem open_popup_pixels (env : Env) (button : Button) (x y : Int) :
    (gimp_pattern_select_button_open_popup env button x y).1.mask_data =
      button.mask_data := by
  have hc := close_popup_pixels button
  unfold gimp_pattern_select_button_open_popup
  simp only []
  split_ifs <;> simp_all

/-- An event on the inline preview keeps the cached pixels. -/
theorem preview_events_pixels (env : Env) (event : GdkEvent) (button : Button) :
    (gimp_pattern_select_preview_events env event button).1.mask_data =
      button.mask_data := by
  have ho := open_popup_pixels env button
  have hc := close_popup_pixels button
  unfold gimp_pattern_select_preview_events
  split
  · rfl
  · split
    · split_ifs
      · exact ho _ _
      · rfl
    · split_ifs
      · exact hc
      · rfl
    · rfl

/-- One event with a well-formed delivery keeps a popup from being open
without cached pixels. -/
theorem step_popup_pixels (env : Env) (w : World) (ev : Event)
    (henv : lookups_well_formed env) (hev : ev.delivery_well_formed = true)
    (h : w.button.popup.isSome = true → w.button.mask_data.isSome = true) :
    (step env w ev).button.popup.isSome = true →
      (step env w ev).button.mask_data.isSome = true := by
  cases ev with
  | clicked =>
    simp only [step, gimp_pattern_select_button_clicked]
    cases w.button.temp_callback <;> exact h
  | set_pattern pattern_name =>
    have hs := set_pattern_pixels env w.button pattern_name henv
    simp only [step, hs.1]
    exact fun hp => hs.2 (h hp)
  | drag_data_received selection =>
    have hs := drag_data_received_pixels env w.button selection henv
    simp only [step, hs.1]
    exact fun hp => hs.2 (h hp)
  | preview_event event =>
    simp only [step, preview_events_pixels]
    cases hm : w.button.mask_data with
    | some d => exact fun _ => rfl
    | none =>
      rw [events_without_pixels env event w.button hm]
      intro hp
      have := h hp
      simp [hm] at this
  | session_callback session name width height bytes mask_data dialog_closing =>
    have hc := callback_pixels name width height bytes mask_data dialog_closing w.button hev
    by_cases hmem : session ∈ w.sessions
    · simp only [step, hmem, if_true]
      exact fun _ => hc.2
    · simp only [step, hmem, if_false]
      exact h

/-- Every sequence of events with well-formed deliveries keeps a popup from
being open without cached pixels. -/
theorem run_popup_pixels (env : Env) (evs : List Event) (w : World)
    (henv : lookups_well_formed env)
    (hevs : ∀ ev ∈ evs, ev.delivery_well_formed = true)
    (h : w.button.popup.isSome = true → w.button.mask_data.isSome = true) :
    (run env w evs).button.popup.isSome = true →
      (run env w evs).button.mask_data.isSome = true := by
  induction evs generalizing w with
  | nil => exact h
  | cons ev evs ih =>
    exact ih (step env w ev) (fun e he => hevs e (List.mem_cons_of_mem _ he))
      (step_popup_pixels env w ev henv (hevs ev (List.mem_cons_self _ _)) h)

/-- The callback keeps the popup. -/
theorem callback_popup (pattern_name : Option CStr) (width height bytes : Int)
    (mask_data : Option Bytes) (dialog_closing : Bool) (button : Button) :
    (gimp_pattern_select_button_callback pattern_name width height bytes mask_data
      dialog_closing button).1.popup = button.popup := by
  simp only [gimp_pattern_select_button_callback]
  cases dialog_closing <;> rfl

/-- A set request keeps the popup. -/
theorem set_pattern_popup (env : Env) (button : Button) (pattern_name : Option CStr) :
    (gimp_pattern_select_button_set_pattern env button pattern_name).1.popup =
      button.popup := by
  unfold gimp_pattern_select_button_set_pattern
  cases button.temp_callback with
  | some cb => rfl
  | none =>
    simp only [set_pattern_resolved]
    cases env.gimp_pattern_get_pixels (requested_name env pattern_name) with
    | none => rfl
    | some p => exact callback_popup _ _ _ _ _ _ _

/-- A drop keeps the popup. -/
theorem drag_data_received_popup (env : Env) (button : Button)
    (selection : GtkSelectionData) :
    (gimp_pattern_select_drag_data_received env button selection).1.popup =
      button.popup := by
  unfold gimp_pattern_select_drag_data_received
  simp only []
  split_ifs
  · rfl
  · exact set_pattern_popup env button _
  · rfl
  · rfl

/-- No event other than a primary-button press on the inline preview opens
a popup. -/
theorem step_opens_no_popup (env : Env) (w : World) (ev : Event)
    (hev : ∀ x y, ev ≠ Event.preview_event (GdkEvent.GDK_BUTTON_PRESS 1 x y))
    (h : w.button.popup = none) :
    (step env w ev).button.popup = none := by
  cases ev with
  | clicked =>
    simp only [step, gimp_pattern_select_button_clicked]
    cases w.button.temp_callback <;> exact h
  | set_pattern pattern_name =>
    simp only [step, set_pattern_popup, h]
  | drag_data_received selection =>
    simp only [step, drag_data_received_popup, h]
  | session_callback session name width height bytes mask_data dialog_closing =>
    by_cases hmem : session ∈ w.sessions
    · simp only [step, hmem, if_true, callback_popup, h]
    · simp only [step, hmem, if_false, h]
  | preview_event event =>
    simp only [step]
    cases hm : w.button.mask_data with
    | none => rw [events_without_pixels env event w.button hm]; exact h
    | some d =>
      cases event with
      | GDK_BUTTON_PRESS bn x y =>
        have hb : bn ≠ 1 := by
          intro hb
          exact hev x y (by rw [hb])
        simp [gimp_pattern_select_preview_events, hm, hb, h]
      | GDK_BUTTON_RELEASE bn x y =>
        by_cases hb : bn = 1
        · simp [gimp_pattern_select_preview_events, hm, hb, (close_popup_result w.button).1]
        · simp [gimp_pattern_select_preview_events, hm, hb, h]
      | GDK_OTHER => simp [gimp_pattern_select_preview_events, hm, h]

/-- The example repository delivers well-formed pixels. -/
theorem env0_lookups_well_formed : lookups_well_formed env0 := by
  intro name p h
  simp only [env0] at h
  split_ifs at h
  · cases h; decide
  · cases h; decide

/-- The lookups of two lists of calls, one after the other. -/
theorem pixel_lookups_append (es fs : List Effect) :
    pixel_lookups (es ++ fs) = pixel_lookups es ++ pixel_lookups fs := by
  induction es with
  | nil => rfl
  | cons e es ih => cases e <;> simp [pixel_lookups, ih]

/-- A preview update looks nothing up. -/
theorem pixel_lookups_preview_update (area : PreviewArea) (width height bytes : Int)
    (mask_data : Option Bytes) :
    pixel_lookups
      (gimp_pattern_select_preview_update area width height bytes mask_data) = [] := by
  unfold gimp_pattern_select_preview_update
  split_ifs <;> rfl

/-- Without a session a set request looks up the requested name, once. -/
theorem set_pattern_pixel_lookups (env : Env) (button : Button)
    (pattern_name : Option CStr) (hsession : button.temp_callback = none) :
    pixel_lookups (gimp_pattern_select_button_set_pattern env button pattern_name).2 =
      [requested_name env pattern_name] := by
  simp only [gimp_pattern_select_button_set_pattern, hsession, set_pattern_resolved]
  cases env.gimp_pattern_get_pixels (requested_name env pattern_name) with
  | none =>
    simp only [pixel_lookups_append]
    split_ifs <;> simp [pixel_lookups]
  | some p =>
    simp only [gimp_pattern_select_button_callback, pixel_lookups_append,
      pixel_lookups_preview_update]
    split_ifs <;> simp [pixel_lookups]

/-- Without a session, a set request whose lookup fails returns the widget
as it was. -/
theorem set_pattern_lookup_failure_state (env : Env) (button : Button)
    (pattern_name : Option CStr) (hsession : button.temp_callback = none)
    (hlookup : env.gimp_pattern_get_pixels (requested_name env pattern_name) = none) :
    (gimp_pattern_select_button_set_pattern env button pattern_name).1 = button := by
  simp only [gimp_pattern_select_button_set_pattern, hsession, set_pattern_resolved, hlookup]

end GimpPatternSelect

namespace DrawableCommands

/-- The first loop returns exactly when visibility is asked for and some
drawable is visible. -/
theorem already_visible_iff (image : Image) (visible : Bool) (ds : List Item) :
    already_visible image visible ds = true ↔
      (visible = true ∧ ∃ d ∈ ds, image.visible d = true) := by
  induction ds with
  | nil => simp [already_visible]
  | cons d ds ih =>
    simp only [already_visible, List.mem_cons, exists_eq_or_imp]
    split_ifs with h
    · simp only [Bool.and_eq_true] at h
      simp [h.1, h.2]
    · rw [ih]
      simp only [Bool.and_eq_true, not_and] at h
      constructor
      · rintro ⟨hv, hd⟩
        exact ⟨hv, Or.inr hd⟩
      · rintro ⟨hv, hd | hd⟩
        · exact absurd hd (h hv)
        · exact ⟨hv, hd⟩

/-- The second loop ends with `iter = NULL` exactly when every drawable has
the visibility asked for. -/
theorem first_differing_nil_iff (image : Image) (visible : Bool) (ds : List Item) :
    first_differing image visible ds = [] ↔ ∀ d ∈ ds, image.visible d = visible := by
  induction ds with
  | nil => simp [first_differing]
  | cons d ds ih =>
    simp only [first_differing, List.mem_cons, forall_eq_or_imp]
    split_ifs with h
    · have hne : ¬ image.visible d = visible := by
        intro he
        simp [he] at h
      simp [hne]
    · have he : image.visible d = visible := by
        cases hv : image.visible d <;> cases hw : visible <;> simp_all
      rw [ih]
      simp [he]

/-- Every drawable has the visibility asked for or is reached by `iter`. -/
theorem first_differing_cover (image : Image) (visible : Bool) (ds : List Item) :
    ∀ d ∈ ds, image.visible d = visible ∨ d ∈ first_differing image visible ds := by
  induction ds with
  | nil => simp
  | cons a ds ih =>
    intro d hd
    simp only [first_differing]
    by_cases h : (visible != image.visible a) = true
    · simp only [h, if_true]
      exact Or.inr hd
    · simp only [h, if_false]
      have he : image.visible a = visible := by
        cases hv : image.visible a <;> cases hw : visible <;> simp_all
      rcases List.mem_cons.1 hd with rfl | hd
      · exact Or.inl he
      · exact ih d hd

/-- What `iter` reaches is part of the list. -/
theorem first_differing_subset (image : Image) (visible : Bool) (ds : List Item) :
    ∀ d ∈ first_differing image visible ds, d ∈ ds := by
  induction ds with
  | nil => simp [first_differing]
  | cons a ds ih =>
    intro d hd
    simp only [first_differing] at hd
    split_ifs at hd
    · exact hd
    · exact List.mem_cons_of_mem _ (ih d hd)

/-- After the third loop the items it went through have the visibility asked
for and every other item has its own. -/
theorem set_visible_from_visible (image : Image) (visible push_undo : Bool)
    (l : List Item) (i : Item) :
    (set_visible_from image visible push_undo l).1.visible i =
      if i ∈ l then visible else image.visible i := by
  induction l generalizing image with
  | nil => simp [set_visible_from]
  | cons d l ih =>
    simp only [set_visible_from, ih, gimp_item_set_visible, List.mem_cons]
    by_cases hl : i ∈ l
    · simp [hl]
    · by_cases hd : i = d
      · simp [hd]
      · simp [hl, hd]

/-- The calls of the third loop: one `gimp_item_set_visible` for each item. -/
theorem set_visible_from_calls (image : Image) (visible push_undo : Bool)
    (l : List Item) :
    (set_visible_from image visible push_undo l).2 =
      l.map (fun d => Call.gimp_item_set_visible d visible push_undo) := by
  induction l generalizing image with
  | nil => rfl
  | cons d l ih => simp [set_visible_from, ih]

/-- The `push_undo` arguments of two lists of calls, one after the other. -/
theorem push_undo_flags_append (cs ds : List Call) :
    push_undo_flags (cs ++ ds) = push_undo_flags cs ++ push_undo_flags ds := by
  induction cs with
  | nil => rfl
  | cons c cs ih => cases c <;> simp [push_undo_flags, ih]

/-- The `push_undo` arguments of the third loop. -/
theorem push_undo_flags_map (visible push_undo : Bool) (l : List Item) :
    push_undo_flags (l.map (fun d => Call.gimp_item_set_visible d visible push_undo)) =
      l.map (fun _ => push_undo) := by
  induction l with
  | nil => rfl
  | cons d l ih => simp [push_undo_flags, ih]

/-- The third loop starts and ends no undo group. -/
theorem count_group_map (visible push_undo : Bool) (l : List Item) :
    (l.map (fun d => Call.gimp_item_set_visible d visible push_undo)).count
        Call.gimp_image_undo_group_start = 0 ∧
    (l.map (fun d => Call.gimp_item_set_visible d visible push_undo)).count
        Call.gimp_image_undo_group_end = 0 := by
  induction l with
  | nil => exact ⟨rfl, rfl⟩
  | cons d l ih => simp [List.count_cons, ih.1, ih.2]

/-- The callback on a non-empty selection, in terms of the drawables it
works on. -/
theorem callback_unfold (image : Image) (first : Item) (rest : List Item)
    (visible : Bool) :
    drawable_visible_cmd_callback image (first :: rest) visible =
      (if already_visible image visible (effective_drawables image first rest) then
        (image, [])
       else
        match first_differing image visible (effective_drawables image first rest) with
        | [] => (image, [])
        | d :: iter =>
          ((set_visible_from image visible
              (if (effective_drawables image first rest).length = 1 then
                (if image.compressible_undo_item =
                    (effective_drawables image first rest).head? then false else true)
               else true) (d :: iter)).1,
           (if (effective_drawables image first rest).length = 1 then []
            else [Call.gimp_image_undo_group_start]) ++
           (set_visible_from image visible
              (if (effective_drawables image first rest).length = 1 then
                (if image.compressible_undo_item =
                    (effective_drawables image first rest).head? then false else true)
               else true) (d :: iter)).2 ++
           (if (effective_drawables image first rest).length ≠ 1 then
              [Call.gimp_image_undo_group_end] else []) ++
           [Call.gimp_image_flush])) := by
  rfl

end DrawableCommands

namespace GimpPatternSelect

/-- The pointer directive on a pointer text followed by a character that is
no hexadecimal digit stops at that character. -/
theorem scan_pointer_text_stop (ptr rest : CStr) (c : Char)
    (h : pointer_text ptr = true) (hc : is_digit 16 c = false) :
    (scan_pointer (ptr ++ c :: rest)).map Prod.snd = some (c :: rest) := by
  match ptr, h with
  | z :: x :: d :: hs, h =>
    simp only [pointer_text, Bool.and_eq_true, decide_eq_true_eq] at h
    obtain ⟨⟨hz, hx⟩, hall⟩ := h
    have hall2 : ∀ a ∈ d :: hs, is_digit 16 a = true := by
      simpa [List.all_eq_true] using hall
    have hstop : ¬ (is_digit 16 c = true) := by simp [hc]
    have hdw : List.dropWhile (is_digit 16) (d :: (hs ++ c :: rest)) = c :: rest := by
      rw [← List.cons_append, List.dropWhile_append_of_pos hall2,
        List.dropWhile_cons_of_neg hstop]
    have h45 : z.toNat ≠ 45 := by omega
    have h43 : z.toNat ≠ 43 := by omega
    simp only [List.cons_append, scan_pointer, scan_number, h45, h43, if_false,
      scan_unsigned, hz, hx, if_true, hdw]
    simp

/-- A character that is no digit of the base is not the digit `0`. -/
theorem not_zero_of_not_digit (base : Nat) (c : Char) (hb : 0 < base)
    (h : is_digit base c = false) : c.toNat ≠ 48 := by
  intro h48
  have : is_digit base c = true := by
    unfold is_digit digit_value
    simp [h48, hb]
  rw [h] at this
  exact Bool.noConfusion this

/-- A text that starts with a character that is no white space, no sign and
no digit of the base holds no number. -/
theorem scan_number_none (base0 base : Nat) (c : Char) (rest : CStr)
    (hbase : (if base0 = 0 then 10 else base0) = base) (hpos : 0 < base)
    (h45 : c.toNat ≠ 45) (h43 : c.toNat ≠ 43) (hd : is_digit base c = false) :
    scan_number base0 (c :: rest) = none := by
  have h48 := not_zero_of_not_digit base c hpos hd
  have hstop : ¬ (is_digit base c = true) := by simp [hd]
  simp only [scan_number, h45, h43, if_false, scan_unsigned, h48, hbase,
    List.takeWhile_cons_of_neg hstop]
  simp

/-- The pointer directive fails on a text that starts with a character that
is no white space, no sign, no hexadecimal digit and no parenthesis. -/
theorem scan_pointer_none (c : Char) (rest : CStr)
    (h45 : c.toNat ≠ 45) (h43 : c.toNat ≠ 43) (hd : is_digit 16 c = false)
    (hparen : tolower c ≠ 40) :
    scan_pointer (c :: rest) = none := by
  have hnum := scan_number_none 16 16 c rest rfl (by decide) h45 h43 hd
  unfold scan_pointer
  rw [hnum]
  rcases rest with _ | ⟨b, _ | ⟨c2, _ | ⟨d, _ | ⟨e, r⟩⟩⟩⟩ <;> simp [hparen]

/-- The scan converts nothing when the text starts with a character that is
no white space, no sign and no decimal digit. -/
theorem sscanf_pid_unparsed (c : Char) (rest : CStr) (hsp : isspace c = false)
    (h45 : c.toNat ≠ 45) (h43 : c.toNat ≠ 43) (hd : is_digit 10 c = false) :
    (sscanf_pid_ptr (c :: rest)).count = 0 := by
  have hnum := scan_number_none 0 10 c rest rfl (by decide) h45 h43 hd
  have hnsp : ¬ (isspace c = true) := by simp [hsp]
  simp only [sscanf_pid_ptr, List.dropWhile_cons_of_neg hnsp, hnum]
  simp

/-- The scan converts the process id alone when the pointer field starts
with a character that is no white space, no sign, no hexadecimal digit and no
parenthesis. -/
theorem sscanf_ptr_unparsed (ds : CStr) (c : Char) (rest : CStr)
    (hds : decimal_text ds = true) (hsp : isspace c = false)
    (h45 : c.toNat ≠ 45) (h43 : c.toNat ≠ 43) (hd : is_digit 16 c = false)
    (hparen : tolower c ≠ 40) :
    (sscanf_pid_ptr (ds ++ [':'] ++ c :: rest)).count = 1 := by
  have hnum := scan_number_decimal ds (c :: rest) hds
  have hptr := scan_pointer_none c rest h45 h43 hd hparen
  have hnsp : ¬ (isspace c = true) := by simp [hsp]
  have hstr : ds ++ [':'] ++ c :: rest = ds ++ ':' :: (c :: rest) := by simp
  rw [hstr]
  have hs0 : List.dropWhile isspace (ds ++ ':' :: (c :: rest)) =
      ds ++ ':' :: (c :: rest) := by
    cases ds with
    | nil => simp [decimal_text] at hds
    | cons d t =>
      simp only [decimal_text, Bool.and_eq_true, decide_eq_true_eq] at hds
      have : ¬ (isspace d = true) := by
        rw [isspace_false_of_ge d (by omega)]; simp
      rw [List.cons_append, List.dropWhile_cons_of_neg this]
  have hne : ds ++ ':' :: (c :: rest) ≠ [] := by
    cases ds <;> simp
  simp only [sscanf_pid_ptr, hs0, hne, if_false, hnum,
    List.dropWhile_cons_of_neg hnsp, hptr]
  simp

/-- The scan converts both fields and leaves the name offset at 0 when the
pointer field is followed by a character that is no hexadecimal digit and no
colon. -/
theorem sscanf_no_second_colon (ds ptr : CStr) (c : Char) (rest : CStr)
    (hds : decimal_text ds = true) (hp : pointer_text ptr = true)
    (hd : is_digit 16 c = false) (hc : c.toNat ≠ 58) :
    (sscanf_pid_ptr (ds ++ [':'] ++ ptr ++ c :: rest)).name_offset = 0 := by
  have hnum := scan_number_decimal ds (ptr ++ c :: rest) hds
  have hptr := scan_pointer_text_stop ptr rest c hp hd
  have hstr : ds ++ [':'] ++ ptr ++ c :: rest = ds ++ ':' :: (ptr ++ c :: rest) := by
    simp
  rw [hstr]
  have hs0 : List.dropWhile isspace (ds ++ ':' :: (ptr ++ c :: rest)) =
      ds ++ ':' :: (ptr ++ c :: rest) := by
    cases ds with
    | nil => simp [decimal_text] at hds
    | cons d t =>
      simp only [decimal_text, Bool.and_eq_true, decide_eq_true_eq] at hds
      have : ¬ (isspace d = true) := by
        rw [isspace_false_of_ge d (by omega)]; simp
      rw [List.cons_append, List.dropWhile_cons_of_neg this]
  have hs2 : List.dropWhile isspace (ptr ++ c :: rest) = ptr ++ c :: rest := by
    match ptr, hp with
    | z :: x :: e :: hs, hp =>
      simp only [pointer_text, Bool.and_eq_true, decide_eq_true_eq] at hp
      have : ¬ (isspace z = true) := by
        rw [isspace_false_of_ge z (by omega)]; simp
      rw [List.cons_append, List.dropWhile_cons_of_neg this]
  have hne : ds ++ ':' :: (ptr ++ c :: rest) ≠ [] := by
    cases ds <;> simp
  cases hsp : scan_pointer (ptr ++ c :: rest) with
  | none => simp [hsp] at hptr
  | some r =>
    obtain ⟨v, s3⟩ := r
    have hs3 : s3 = c :: rest := by simpa [hsp] using hptr
    subst hs3
    simp only [sscanf_pid_ptr, hs0, hne, if_false, hnum, hs2, hsp]
    simp [hc]

/-- A payload of format 8, given with its own length and without NUL, on
which the scan converts fewer than two fields or leaves the name offset at 0
is dropped. -/
theorem drag_payload_reject_text (env : Env) (button : Button)
    (selection : GtkSelectionData)
    (hformat : selection.format = 8)
    (hlength : selection.length = (selection.data.length : Int))
    (hne : selection.data ≠ [])
    (hnul : ∀ c ∈ selection.data, c.toNat ≠ 0)
    (hscan : (sscanf_pid_ptr selection.data).count < 2 ∨
      (sscanf_pid_ptr selection.data).name_offset ≤ 0) :
    gimp_pattern_select_drag_data_received env button selection = (button, []) := by
  have hstr : g_strndup selection.data selection.length.toNat = selection.data := by
    rw [hlength, Int.toNat_ofNat]
    exact g_strndup_all selection.data hnul
  have hpos : 1 ≤ selection.length := by
    rw [hlength]
    have : 0 < selection.data.length := List.length_pos.2 hne
    omega
  exact drag_payload_reject env button selection hformat hpos (by rw [hstr]; exact hscan)

/-! ## Setting the pattern -/

/-- C1: without a session, `gimp_pattern_select_button_set_pattern` looks up
the requested name (the repository's current pattern when the argument is
`NULL` or empty); when the lookup succeeds with well-formed pixels, the
cached name, width, height, bytes and pixel copy are the looked-up ones, the
session and popup are as before, and the calls made are the lookup, the
redraw of the inline preview, the emission of `pattern-set` whose
`dialog_closing` argument is `FALSE`, and the `pattern-name` notification. -/
theorem set_pattern_lookup_success (env : Env) (button : Button)
    (pattern_name : Option CStr) (p : PatternPixels)
    (hsession : button.temp_callback = none)
    (hlookup : env.gimp_pattern_get_pixels (requested_name env pattern_name) = some p)
    (hpixels : pixels_well_formed p.width p.height p.bytes p.mask_data = true) :
    (gimp_pattern_select_button_set_pattern env button pattern_name).1 =
      { button with
        pattern_name := requested_name env pattern_name
        width := p.width, height := p.height, bytes := p.bytes
        mask_data := p.mask_data } ∧
    gimp_pattern_select_button_get_pattern
      (gimp_pattern_select_button_set_pattern env button pattern_name).1 =
      requested_name env pattern_name ∧
    (gimp_pattern_select_button_set_pattern env button pattern_name).2 =
      (if pattern_name = none ∨ pattern_name = some [] then [Effect.gimp_context_get_pattern]
       else []) ++
      [Effect.gimp_pattern_get_pixels (requested_name env pattern_name)] ++
      gimp_pattern_select_preview_update PreviewArea.inline_preview
        p.width p.height p.bytes p.mask_data ++
      [Effect.g_signal_emit_pattern_set
         [CArg.string (requested_name env pattern_name), CArg.int p.width,
          CArg.int p.height, CArg.int p.bytes, CArg.boolean false],
       Effect.g_object_notify_pattern_name] := by
  have hmem := g_memdup2_well_formed p.width p.height p.bytes p.mask_data hpixels
  simp only [gimp_pattern_select_button_set_pattern, hsession, set_pattern_resolved,
    hlookup, gimp_pattern_select_button_callback, hmem,
    gimp_pattern_select_button_get_pattern]
  simp

/-- C1 at the example repository: setting `mypattern` on the example widget. -/
theorem set_pattern_lookup_success_witness :
    (gimp_pattern_select_button_set_pattern env0 button0 (some "mypattern".toList)).1 =
      { button0 with
        pattern_name := some "mypattern".toList
        width := 1, height := 2, bytes := 1
        mask_data := some [7, 9] } ∧
    notifications
      (gimp_pattern_select_button_set_pattern env0 button0 (some "mypattern".toList)).2 =
      [Effect.g_signal_emit_pattern_set
         [CArg.string (some "mypattern".toList), CArg.int 1, CArg.int 2, CArg.int 1,
          CArg.boolean false],
       Effect.g_object_notify_pattern_name] := by
  have h := set_pattern_lookup_success env0 button0 (some "mypattern".toList)
    { width := 1, height := 2, bytes := 1, mask_data_size := 2, mask_data := some [7, 9] }
    rfl (by decide) (by decide)
  refine ⟨h.1, ?_⟩
  rw [h.2.2]
  decide

/-- C2: without a session, when the lookup of the requested name fails,
`gimp_pattern_select_button_set_pattern` returns the widget as it was (name,
size, pixels, session and popup) and raises no notification: its only calls
are those to the repository. -/
theorem set_pattern_lookup_failure (env : Env) (button : Button)
    (pattern_name : Option CStr)
    (hsession : button.temp_callback = none)
    (hlookup : env.gimp_pattern_get_pixels (requested_name env pattern_name) = none) :
    (gimp_pattern_select_button_set_pattern env button pattern_name).1 = button ∧
    notifications (gimp_pattern_select_button_set_pattern env button pattern_name).2 = [] ∧
    (gimp_pattern_select_button_set_pattern env button pattern_name).2 =
      (if pattern_name = none ∨ pattern_name = some [] then [Effect.gimp_context_get_pattern]
       else []) ++
      [Effect.gimp_pattern_get_pixels (requested_name env pattern_name)] := by
  simp only [gimp_pattern_select_button_set_pattern, hsession, set_pattern_resolved, hlookup]
  refine ⟨trivial, ?_, trivial⟩
  split <;> simp [notifications]

/-- C2 at the example repository: `nopattern` is not known to it. -/
theorem set_pattern_lookup_failure_witness :
    (gimp_pattern_select_button_set_pattern env0 button0 (some "nopattern".toList)).1 =
      button0 ∧
    notifications
      (gimp_pattern_select_button_set_pattern env0 button0 (some "nopattern".toList)).2 = [] :=
  ⟨(set_pattern_lookup_failure env0 button0 (some "nopattern".toList) rfl (by decide)).1,
   (set_pattern_lookup_failure env0 button0 (some "nopattern".toList) rfl (by decide)).2.1⟩

/-- C3: with a session `cb` active, `gimp_pattern_select_button_set_pattern`
makes exactly one call, `gimp_patterns_set_popup (cb, pattern_name)`; it makes
no repository call, raises no notification and returns the widget unchanged. -/
theorem set_pattern_session_forward (env : Env) (button : Button) (cb : CStr)
    (pattern_name : Option CStr) :
    gimp_pattern_select_button_set_pattern env
        { button with temp_callback := some cb } pattern_name =
      ({ button with temp_callback := some cb },
       [Effect.gimp_patterns_set_popup cb pattern_name]) ∧
    repository_calls (gimp_pattern_select_button_set_pattern env
        { button with temp_callback := some cb } pattern_name).2 = [] ∧
    notifications (gimp_pattern_select_button_set_pattern env
        { button with temp_callback := some cb } pattern_name).2 = [] := by
  simp [gimp_pattern_select_button_set_pattern, repository_calls, notifications]

/-! ## The session result callback -/

/-- C4: after `gimp_pattern_select_button_callback` with a name, a size, a
channel count (1 to 4 or not, 5 for instance) and well-formed pixels,
`gimp_pattern_select_button_get_pattern` returns the name and the cached
width, height, bytes and pixel copy are the given ones; the draw calls are
those of the preview update when the channel count is 1 to 4 and none
otherwise, and no warning is logged. -/
theorem callback_replaces_cache (pattern_name : Option CStr) (width height bytes : Int)
    (mask_data : Option Bytes) (dialog_closing : Bool) (button : Button)
    (hpixels : pixels_well_formed width height bytes mask_data = true) :
    gimp_pattern_select_button_get_pattern
      (gimp_pattern_select_button_callback pattern_name width height bytes mask_data
        dialog_closing button).1 = pattern_name ∧
    (gimp_pattern_select_button_callback pattern_name width height bytes mask_data
        dialog_closing button).1.width = width ∧
    (gimp_pattern_select_button_callback pattern_name width height bytes mask_data
        dialog_closing button).1.height = height ∧
    (gimp_pattern_select_button_callback pattern_name width height bytes mask_data
        dialog_closing button).1.bytes = bytes ∧
    (gimp_pattern_select_button_callback pattern_name width height bytes mask_data
        dialog_closing button).1.mask_data = mask_data ∧
    draw_calls (gimp_pattern_select_button_callback pattern_name width height bytes
        mask_data dialog_closing button).2 =
      (if 1 ≤ bytes ∧ bytes ≤ 4 then
        gimp_pattern_select_preview_update PreviewArea.inline_preview width height bytes
          mask_data
       else []) ∧
    warnings (gimp_pattern_select_button_callback pattern_name width height bytes
        mask_data dialog_closing button).2 = [] := by
  have hmem := g_memdup2_well_formed width height bytes mask_data hpixels
  simp only [gimp_pattern_select_button_callback, gimp_pattern_select_button_get_pattern,
    hmem]
  refine ⟨?_, ?_, ?_, ?_, ?_, ?_, ?_⟩
  · cases dialog_closing <;> rfl
  · cases dialog_closing <;> rfl
  · cases dialog_closing <;> rfl
  · cases dialog_closing <;> rfl
  · cases dialog_closing <;> rfl
  · unfold gimp_pattern_select_preview_update
    split_ifs <;> first | rfl | omega
  · unfold gimp_pattern_select_preview_update
    split_ifs <;> rfl

/-- C4 with five bytes per pixel: the cache is replaced, nothing is drawn. -/
theorem callback_replaces_cache_witness :
    gimp_pattern_select_button_get_pattern
      (gimp_pattern_select_button_callback (some "Odd".toList) 1 1 5
        (some [1, 2, 3, 4, 5]) false button0).1 = some "Odd".toList ∧
    (gimp_pattern_select_button_callback (some "Odd".toList) 1 1 5
        (some [1, 2, 3, 4, 5]) false button0).1.mask_data = some [1, 2, 3, 4, 5] ∧
    draw_calls (gimp_pattern_select_button_callback (some "Odd".toList) 1 1 5
        (some [1, 2, 3, 4, 5]) false button0).2 = [] :=
  have h := callback_replaces_cache (some "Odd".toList) 1 1 5 (some [1, 2, 3, 4, 5])
    false button0 (by decide)
  ⟨h.1, h.2.2.2.2.1, h.2.2.2.2.2.1⟩

/-- C5 (what the code does): the emission of `pattern-set` in
`gimp_pattern_select_button_callback` passes five values, the name, the
width, the height, the bytes and `dialog_closing`, to a signal declared with
six parameters; `mask_data` is not among them, so the value in the position
declared `G_TYPE_POINTER` is `dialog_closing` and nothing is passed for the
position declared `G_TYPE_BOOLEAN`.  The `pattern-name` notification follows
whatever `dialog_closing` is. -/
theorem callback_emission_omits_mask_data (pattern_name : Option CStr)
    (width height bytes : Int) (mask_data : Option Bytes) (dialog_closing : Bool)
    (button : Button) :
    notifications (gimp_pattern_select_button_callback pattern_name width height bytes
        mask_data dialog_closing button).2 =
      [Effect.g_signal_emit_pattern_set
         [CArg.string pattern_name, CArg.int width, CArg.int height, CArg.int bytes,
          CArg.boolean dialog_closing],
       Effect.g_object_notify_pattern_name] ∧
    [CArg.string pattern_name, CArg.int width, CArg.int height, CArg.int bytes,
      CArg.boolean dialog_closing].map CArg.type ≠ pattern_set_param_types ∧
    [CArg.string pattern_name, CArg.int width, CArg.int height, CArg.int bytes,
      CArg.boolean dialog_closing].length + 1 = pattern_set_param_types.length ∧
    CArg.pointer mask_data ∉
      [CArg.string pattern_name, CArg.int width, CArg.int height, CArg.int bytes,
       CArg.boolean dialog_closing] := by
  refine ⟨?_, by simp [CArg.type, pattern_set_param_types],
    by simp [pattern_set_param_types], by simp⟩
  simp only [gimp_pattern_select_button_callback]
  unfold gimp_pattern_select_preview_update
  split_ifs <;> rfl

/-- C6: after the callback with `dialog_closing = TRUE` the widget holds no
session and the next click calls `gimp_pattern_select_new` with the title and
the name just cached; after the callback with `dialog_closing = FALSE` the
session reference is the one held before. -/
theorem callback_session_reference (env : Env) (pattern_name : Option CStr)
    (width height bytes : Int) (mask_data : Option Bytes) (button : Button) :
    (gimp_pattern_select_button_callback pattern_name width height bytes mask_data
        true button).1.temp_callback = none ∧
    (gimp_pattern_select_button_clicked env
        (gimp_pattern_select_button_callback pattern_name width height bytes mask_data
          true button).1).2 =
      [Effect.gimp_pattern_select_new button.title pattern_name] ∧
    (gimp_pattern_select_button_clicked env
        (gimp_pattern_select_button_callback pattern_name width height bytes mask_data
          true button).1).1.temp_callback =
      env.gimp_pattern_select_new button.title pattern_name ∧
    (gimp_pattern_select_button_callback pattern_name width height bytes mask_data
        false button).1.temp_callback = button.temp_callback := by
  simp [gimp_pattern_select_button_callback, gimp_pattern_select_button_clicked]

/-! ## The browse control -/

/-- C7: from a widget without a session, after every sequence of events
(clicks, set requests, drops, preview events, session results) at most one
session is open, and it is the one the widget holds; a click with a session
`cb` held makes the single call `gimp_patterns_set_popup (cb, pattern_name)`
and keeps `cb`; a click with none makes the single call
`gimp_pattern_select_new (title, pattern_name)` and keeps what it returns; two
clicks in a row, the first of which obtains the session `cb`, make one
`gimp_pattern_select_new` followed by one `gimp_patterns_set_popup` and leave
exactly `cb` open. -/
theorem single_session :
    (∀ (env : Env) (button : Button) (evs : List Event),
      (run env (World.start button) evs).sessions.length ≤ 1 ∧
      (run env (World.start button) evs).sessions =
        (run env (World.start button) evs).button.temp_callback.toList) ∧
    (∀ (env : Env) (button : Button) (cb : CStr),
      gimp_pattern_select_button_clicked env { button with temp_callback := some cb } =
        ({ button with temp_callback := some cb },
         [Effect.gimp_patterns_set_popup cb button.pattern_name])) ∧
    (∀ (env : Env) (button : Button),
      gimp_pattern_select_button_clicked env { button with temp_callback := none } =
        ({ button with
           temp_callback := env.gimp_pattern_select_new button.title button.pattern_name },
         [Effect.gimp_pattern_select_new button.title button.pattern_name])) ∧
    (∀ (env : Env) (button : Button) (cb : CStr),
      env.gimp_pattern_select_new button.title button.pattern_name = some cb →
      (run env (World.start button) [Event.clicked, Event.clicked]).trace =
        [Effect.gimp_pattern_select_new button.title button.pattern_name,
         Effect.gimp_patterns_set_popup cb button.pattern_name] ∧
      (run env (World.start button) [Event.clicked, Event.clicked]).sessions = [cb] ∧
      (run env (World.start button) [Event.clicked, Event.clicked]).button.temp_callback =
        some cb) := by
  refine ⟨?_, ?_, ?_, ?_⟩
  · intro env button evs
    have h := run_sessions env evs (World.start button) rfl
    refine ⟨?_, h⟩
    rw [h]
    cases (run env (World.start button) evs).button.temp_callback <;> simp
  · intro env button cb
    rfl
  · intro env button
    rfl
  · intro env button cb hopen
    simp [run, step, World.start, gimp_pattern_select_button_clicked, hopen,
      opened_sessions]

/-- C7 at the example: two clicks on the example widget. -/
theorem single_session_witness :
    (run env0 (World.start button0) [Event.clicked, Event.clicked]).trace =
      [Effect.gimp_pattern_select_new (some "Pattern Selection".toList)
         (some "Clouds".toList),
       Effect.gimp_patterns_set_popup "temp-procedure-1".toList (some "Clouds".toList)] ∧
    (run env0 (World.start button0) [Event.clicked, Event.clicked]).sessions =
      ["temp-procedure-1".toList] :=
  have h := single_session.2.2.2 env0 button0 "temp-procedure-1".toList rfl
  ⟨h.1, h.2.1⟩

/-! ## Popup placement -/

/-- C9: `gimp_pattern_select_button_open_popup` leaves no popup and moves no
window when the cached pattern is at most `CELL_SIZE` in both dimensions;
otherwise the popup has the size of the pattern and its top-left corner, the
position passed to `gtk_window_move`, is
`(CLAMP (x_org + x - W/2, area.x, area.x + area.width - W),
  CLAMP (y_org + y - H/2, area.y, area.y + area.height - H))`, the division
truncating and each axis clamped on its own.  For the work area
[0,0]-[1000,800], a 200x200 pattern, the origin (900, 50) and the pointer
offset (10, 10) the corner is (800, 0). -/
theorem open_popup_position (env : Env) (button : Button) (x y : Int) :
    (gimp_pattern_select_button_open_popup env button x y).1.popup =
      (if button.width ≤ CELL_SIZE ∧ button.height ≤ CELL_SIZE then none
       else some
        { x := CLAMP (env.x_org + x - Int.tdiv button.width 2) env.workarea.x
                (env.workarea.x + env.workarea.width - button.width)
          y := CLAMP (env.y_org + y - Int.tdiv button.height 2) env.workarea.y
                (env.workarea.y + env.workarea.height - button.height)
          width := button.width
          height := button.height }) ∧
    window_moves (gimp_pattern_select_button_open_popup env button x y).2 =
      (if button.width ≤ CELL_SIZE ∧ button.height ≤ CELL_SIZE then []
       else
        [(CLAMP (env.x_org + x - Int.tdiv button.width 2) env.workarea.x
            (env.workarea.x + env.workarea.width - button.width),
          CLAMP (env.y_org + y - Int.tdiv button.height 2) env.workarea.y
            (env.workarea.y + env.workarea.height - button.height))]) ∧
    (gimp_pattern_select_button_open_popup
        { env0 with x_org := 900, y_org := 50
                    workarea := { x := 0, y := 0, width := 1000, height := 800 } }
        { button0 with width := 200, height := 200 } 10 10).1.popup =
      some { x := 800, y := 0, width := 200, height := 200 } ∧
    window_moves (gimp_pattern_select_button_open_popup
        { env0 with x_org := 900, y_org := 50
                    workarea := { x := 0, y := 0, width := 1000, height := 800 } }
        { button0 with width := 200, height := 200 } 10 10).2 = [(800, 0)] :=
  ⟨open_popup_popup env button x y, open_popup_moves env button x y, by decide, by decide⟩

/-- C10 (as stated, refuted): in a work area of 100x100 at (0, 0) the popup
of the 200x200 example pattern is placed at (0, 0) and so ends at 200, past
the right edge 100 of the work area. -/
theorem open_popup_exceeds_small_workarea :
    ∃ p : Popup,
      (gimp_pattern_select_button_open_popup
          { env0 with x_org := 0, y_org := 0
                      workarea := { x := 0, y := 0, width := 100, height := 100 } }
          button0 0 0).1.popup = some p ∧
      p = { x := 0, y := 0, width := 200, height := 200 } ∧
      ¬ (p.x + p.width ≤ 0 + 100) :=
  ⟨{ x := 0, y := 0, width := 200, height := 200 }, by decide, rfl, by decide⟩

/-- C10 (amended): when the cached pattern is larger than the cell in some
dimension, so that a popup is opened, and is not larger than the work area
(`W ≤ area.width` and `H ≤ area.height`), the popup rectangle of size `W x H`
lies inside the work area on both axes. -/
theorem open_popup_within_workarea (env : Env) (button : Button) (x y : Int)
    (hlarge : CELL_SIZE < button.width ∨ CELL_SIZE < button.height)
    (hwidth : button.width ≤ env.workarea.width)
    (hheight : button.height ≤ env.workarea.height) :
    ∃ p : Popup,
      (gimp_pattern_select_button_open_popup env button x y).1.popup = some p ∧
      p.width = button.width ∧ p.height = button.height ∧
      env.workarea.x ≤ p.x ∧ p.x + p.width ≤ env.workarea.x + env.workarea.width ∧
      env.workarea.y ≤ p.y ∧ p.y + p.height ≤ env.workarea.y + env.workarea.height := by
  have hpos := open_popup_popup env button x y
  have hnot : ¬ (button.width ≤ CELL_SIZE ∧ button.height ≤ CELL_SIZE) := by omega
  rw [if_neg hnot] at hpos
  refine ⟨_, hpos, rfl, rfl, ?_, ?_, ?_, ?_⟩ <;>
    · simp only [CLAMP]
      split_ifs <;> omega

/-- C10 (amended) at the example: the 200x200 pattern in the 1000x800 work
area, pointer near the right and top edges. -/
theorem open_popup_within_workarea_witness :
    ∃ p : Popup,
      (gimp_pattern_select_button_open_popup env0 button0 10 10).1.popup = some p ∧
      p.width = 200 ∧ p.height = 200 ∧
      (0 : Int) ≤ p.x ∧ p.x + p.width ≤ 0 + 1000 ∧
      (0 : Int) ≤ p.y ∧ p.y + p.height ≤ 0 + 800 :=
  open_popup_within_workarea env0 button0 10 10 (by decide) (by decide) (by decide)

/-! ## Drag and drop -/

/-- C8 (as stated, refuted): the payload `1234:0x7ffe12:mypattern` from the
current process 1234 is accepted, yet with a session open the request goes to
the session and `gimp_pattern_select_button_get_pattern` still returns
`Clouds`; and the accepted payload `1234:0x7ffe12:nopattern`, whose name the
repository does not know, leaves `Clouds` as well. -/
theorem drag_payload_accepted_name_not_cached :
    (gimp_pattern_select_drag_data_received env0
        { button0 with temp_callback := some "temp-procedure-1".toList }
        { format := 8, length := 23, data := "1234:0x7ffe12:mypattern".toList }).2 =
      [Effect.gimp_patterns_set_popup "temp-procedure-1".toList
        (some "mypattern".toList)] ∧
    gimp_pattern_select_button_get_pattern
      (gimp_pattern_select_drag_data_received env0
        { button0 with temp_callback := some "temp-procedure-1".toList }
        { format := 8, length := 23, data := "1234:0x7ffe12:mypattern".toList }).1 =
      some "Clouds".toList ∧
    (gimp_pattern_select_drag_data_received env0 button0
        { format := 8, length := 23, data := "1234:0x7ffe12:nopattern".toList }).2 =
      [Effect.gimp_pattern_get_pixels (some "nopattern".toList)] ∧
    gimp_pattern_select_button_get_pattern
      (gimp_pattern_select_drag_data_received env0 button0
        { format := 8, length := 23, data := "1234:0x7ffe12:nopattern".toList }).1 =
      some "Clouds".toList ∧
    some "Clouds".toList ≠ some "mypattern".toList ∧
    some "Clouds".toList ≠ some "nopattern".toList := by
  decide

/-- C8 (amended): a received payload of format 8 whose text, valid and
without NUL, is `<pid>:<ptr>:<name>` (a decimal process id below `2 ^ 31`, a
pointer as `0x` and hexadecimal digits) is handled as
`gimp_pattern_select_button_set_pattern (button, name)` when `<pid>` is the
current process id, so that `gimp_pattern_select_button_get_pattern` returns
`name` afterwards when no session is active, `name` is not empty and its
lookup succeeds; when `<pid>` differs the widget is returned unchanged and no
call is made.  The widget is returned unchanged without any call as well when
the two leading fields do not both parse or the name offset stays 0: when the
text starts with a character that can start no number, when the pointer field
starts with a character that can start no pointer, when the pointer is not
followed by a colon, and in general whenever the scan converts fewer than two
fields or leaves the name offset at 0. -/
theorem drag_data_received_payload :
    (∀ (env : Env) (button : Button) (selection : GtkSelectionData) (ds ptr name : CStr),
      selection.format = 8 →
      selection.data = ds ++ [':'] ++ ptr ++ [':'] ++ name →
      selection.length = (selection.data.length : Int) →
      (∀ c ∈ selection.data, c.toNat ≠ 0) →
      env.g_utf8_validate selection.data = true →
      decimal_text ds = true → digits_value 10 ds < 2 ^ 31 → pointer_text ptr = true →
      gimp_pattern_select_drag_data_received env button selection =
        (if (digits_value 10 ds : Int) = env.gimp_getpid then
          gimp_pattern_select_button_set_pattern env button (some name)
         else (button, [])) ∧
      ((digits_value 10 ds : Int) = env.gimp_getpid → button.temp_callback = none →
        name ≠ [] → (env.gimp_pattern_get_pixels (some name)).isSome = true →
        gimp_pattern_select_button_get_pattern
          (gimp_pattern_select_drag_data_received env button selection).1 = some name)) ∧
    (∀ (env : Env) (button : Button) (selection : GtkSelectionData) (c : Char)
        (rest : CStr),
      selection.format = 8 → selection.data = c :: rest →
      selection.length = (selection.data.length : Int) →
      (∀ a ∈ selection.data, a.toNat ≠ 0) →
      isspace c = false → c.toNat ≠ 45 → c.toNat ≠ 43 → is_digit 10 c = false →
      gimp_pattern_select_drag_data_received env button selection = (button, [])) ∧
    (∀ (env : Env) (button : Button) (selection : GtkSelectionData) (ds : CStr)
        (c : Char) (rest : CStr),
      selection.format = 8 → selection.data = ds ++ [':'] ++ c :: rest →
      selection.length = (selection.data.length : Int) →
      (∀ a ∈ selection.data, a.toNat ≠ 0) →
      decimal_text ds = true →
      isspace c = false → c.toNat ≠ 45 → c.toNat ≠ 43 → is_digit 16 c = false →
      tolower c ≠ 40 →
      gimp_pattern_select_drag_data_received env button selection = (button, [])) ∧
    (∀ (env : Env) (button : Button) (selection : GtkSelectionData) (ds ptr : CStr)
        (c : Char) (rest : CStr),
      selection.format = 8 → selection.data = ds ++ [':'] ++ ptr ++ c :: rest →
      selection.length = (selection.data.length : Int) →
      (∀ a ∈ selection.data, a.toNat ≠ 0) →
      decimal_text ds = true → pointer_text ptr = true →
      is_digit 16 c = false → c.toNat ≠ 58 →
      gimp_pattern_select_drag_data_received env button selection = (button, [])) ∧
    (∀ (env : Env) (button : Button) (selection : GtkSelectionData),
      selection.format = 8 → 1 ≤ selection.length →
      ((sscanf_pid_ptr (g_strndup selection.data selection.length.toNat)).count < 2 ∨
        (sscanf_pid_ptr (g_strndup selection.data selection.length.toNat)).name_offset ≤ 0) →
      gimp_pattern_select_drag_data_received env button selection = (button, [])) := by
  refine ⟨?_, ?_, ?_, ?_, ?_⟩
  · intro env button selection ds ptr name hformat hdata hlength hnul hvalid hds hrange hptr
    have hacc := drag_payload_accept env button selection ds ptr name hformat hdata
      hlength hnul hvalid hds hrange hptr
    refine ⟨hacc, ?_⟩
    intro hpid hsession hname hlookup
    rw [hacc, if_pos hpid]
    exact set_pattern_caches_name env button name hsession hname hlookup
  · intro env button selection c rest hformat hdata hlength hnul hsp h45 h43 hd
    apply drag_payload_reject_text env button selection hformat hlength
      (by rw [hdata]; simp) hnul
    left
    rw [hdata, sscanf_pid_unparsed c rest hsp h45 h43 hd]
    decide
  · intro env button selection ds c rest hformat hdata hlength hnul hds hsp h45 h43 hd hpar
    apply drag_payload_reject_text env button selection hformat hlength
      (by rw [hdata]; simp) hnul
    left
    rw [hdata, sscanf_ptr_unparsed ds c rest hds hsp h45 h43 hd hpar]
    decide
  · intro env button selection ds ptr c rest hformat hdata hlength hnul hds hptr hd hc
    apply drag_payload_reject_text env button selection hformat hlength
      (by rw [hdata]; simp) hnul
    right
    rw [hdata, sscanf_no_second_colon ds ptr c rest hds hptr hd hc]
  · intro env button selection hformat hlength hscan
    exact drag_payload_reject env button selection hformat hlength hscan

/-- C8 (amended) at the example: `1234:0x7ffe12:mypattern` dropped on the
example widget by process 1234 caches `mypattern`; the same payload from
process 1235 leaves the widget as it was, and so do `x1234:0x7f:mypattern`,
whose process id does not parse, `1234:zz:mypattern`, whose pointer does not
parse, `1234:0x7f,mypattern`, which has no second colon, and `1234`. -/
theorem drag_data_received_payload_witness :
    gimp_pattern_select_button_get_pattern
      (gimp_pattern_select_drag_data_received env0 button0
        { format := 8, length := 23, data := "1234:0x7ffe12:mypattern".toList }).1 =
      some "mypattern".toList ∧
    gimp_pattern_select_drag_data_received env0 button0
        { format := 8, length := 23, data := "1235:0x7ffe12:mypattern".toList } =
      (button0, []) ∧
    gimp_pattern_select_drag_data_received env0 button0
        { format := 8, length := 20, data := "x1234:0x7f:mypattern".toList } =
      (button0, []) ∧
    gimp_pattern_select_drag_data_received env0 button0
        { format := 8, length := 17, data := "1234:zz:mypattern".toList } =
      (button0, []) ∧
    gimp_pattern_select_drag_data_received env0 button0
        { format := 8, length := 19, data := "1234:0x7f,mypattern".toList } =
      (button0, []) ∧
    gimp_pattern_select_drag_data_received env0 button0
        { format := 8, length := 4, data := "1234".toList } =
      (button0, []) :=
  ⟨(drag_data_received_payload.1 env0 button0
      { format := 8, length := 23, data := "1234:0x7ffe12:mypattern".toList }
      "1234".toList "0x7ffe12".toList "mypattern".toList
      rfl rfl rfl (by decide) rfl (by decide) (by decide) (by decide)).2
      (by decide) rfl (by decide) (by decide),
   (drag_data_received_payload.1 env0 button0
      { format := 8, length := 23, data := "1235:0x7ffe12:mypattern".toList }
      "1235".toList "0x7ffe12".toList "mypattern".toList
      rfl rfl rfl (by decide) rfl (by decide) (by decide) (by decide)).1,
   drag_data_received_payload.2.1 env0 button0
      { format := 8, length := 20, data := "x1234:0x7f:mypattern".toList }
      'x' "1234:0x7f:mypattern".toList
      rfl rfl rfl (by decide) (by decide) (by decide) (by decide) (by decide),
   drag_data_received_payload.2.2.1 env0 button0
      { format := 8, length := 17, data := "1234:zz:mypattern".toList }
      "1234".toList 'z' "z:mypattern".toList
      rfl rfl rfl (by decide) (by decide) (by decide) (by decide) (by decide)
      (by decide) (by decide),
   drag_data_received_payload.2.2.2.1 env0 button0
      { format := 8, length := 19, data := "1234:0x7f,mypattern".toList }
      "1234".toList "0x7f".toList ',' "mypattern".toList
      rfl rfl rfl (by decide) (by decide) (by decide) (by decide) (by decide),
   drag_data_received_payload.2.2.2.2 env0 button0
      { format := 8, length := 4, data := "1234".toList }
      rfl (by decide) (by decide)⟩

/-! ## Press and release on the inline preview -/

/-- C11: after a primary-button press on the inline preview a popup exists
if and only if cached pixel data exists and the cached pattern is larger than
the cell in some dimension (`width > 20` or `height > 20`); when it is larger
in neither, no popup exists after the press, whether or not one existed
before.  This holds in every widget state where a popup is open only with
cached pixel data, and so in every state reached from a widget without popup
by any sequence of events whose deliveries of pixels (session results,
repository lookups) are well-formed. -/
theorem press_popup_exists :
    (∀ (env : Env) (button : Button) (x y : Int),
      (button.mask_data.isSome = true ∨ button.popup = none) →
      ((gimp_pattern_select_preview_events env (GdkEvent.GDK_BUTTON_PRESS 1 x y)
          button).1.popup.isSome = true ↔
        (button.mask_data.isSome = true ∧ (20 < button.width ∨ 20 < button.height))) ∧
      (button.width ≤ 20 ∧ button.height ≤ 20 →
        (gimp_pattern_select_preview_events env (GdkEvent.GDK_BUTTON_PRESS 1 x y)
          button).1.popup = none)) ∧
    (∀ (env : Env) (button : Button) (evs : List Event) (x y : Int),
      lookups_well_formed env → (∀ ev ∈ evs, ev.delivery_well_formed = true) →
      ((gimp_pattern_select_preview_events env (GdkEvent.GDK_BUTTON_PRESS 1 x y)
          (run env (World.start { button with popup := none }) evs).button).1.popup.isSome
          = true ↔
        ((run env (World.start { button with popup := none }) evs).button.mask_data.isSome
            = true ∧
          (20 < (run env (World.start { button with popup := none }) evs).button.width ∨
           20 < (run env (World.start { button with popup := none }) evs).button.height))) ∧
      ((run env (World.start { button with popup := none }) evs).button.width ≤ 20 ∧
        (run env (World.start { button with popup := none }) evs).button.height ≤ 20 →
        (gimp_pattern_select_preview_events env (GdkEvent.GDK_BUTTON_PRESS 1 x y)
          (run env (World.start { button with popup := none }) evs).button).1.popup =
          none)) := by
  have hstate : ∀ (env : Env) (button : Button) (x y : Int),
      (button.mask_data.isSome = true ∨ button.popup = none) →
      ((gimp_pattern_select_preview_events env (GdkEvent.GDK_BUTTON_PRESS 1 x y)
          button).1.popup.isSome = true ↔
        (button.mask_data.isSome = true ∧ (20 < button.width ∨ 20 < button.height))) ∧
      (button.width ≤ 20 ∧ button.height ≤ 20 →
        (gimp_pattern_select_preview_events env (GdkEvent.GDK_BUTTON_PRESS 1 x y)
          button).1.popup = none) := by
    intro env button x y h
    cases hm : button.mask_data with
    | none =>
      have hp : button.popup = none := by
        rcases h with h | h
        · simp [hm] at h
        · exact h
      rw [events_without_pixels env _ button hm]
      simp [hp]
    | some d =>
      have hs : button.mask_data.isSome = true := by simp [hm]
      rw [press_with_pixels env button x y hs, open_popup_popup]
      simp only [CELL_SIZE]
      constructor
      · split_ifs with hsmall
        · simp
          omega
        · simp
          omega
      · intro hsmall
        rw [if_pos hsmall]
  refine ⟨hstate, ?_⟩
  intro env button evs x y henv hevs
  have hinv := run_popup_pixels env evs (World.start { button with popup := none })
    henv hevs (by simp [World.start])
  apply hstate
  cases hp : (run env (World.start { button with popup := none }) evs).button.popup with
  | none => exact Or.inr rfl
  | some p => exact Or.inl (hinv (by simp [hp]))

/-- C11 at the example: a press on the example widget (200x200 cached) opens
a popup; with a 10x10 pattern cached the popup that was open is gone after
the press; and after a click and a session result with the two pixels of
`mypattern` (1x2) a press leaves no popup. -/
theorem press_popup_exists_witness :
    (gimp_pattern_select_preview_events env0 (GdkEvent.GDK_BUTTON_PRESS 1 10 10)
        button0).1.popup.isSome = true ∧
    (gimp_pattern_select_preview_events env0 (GdkEvent.GDK_BUTTON_PRESS 1 10 10)
        { button0 with width := 10, height := 10, mask_data := some (List.replicate 100 0)
                       popup := some { x := 800, y := 0, width := 200, height := 200 } }
      ).1.popup = none ∧
    (gimp_pattern_select_preview_events env0 (GdkEvent.GDK_BUTTON_PRESS 1 10 10)
        (run env0 (World.start { button0 with popup := none })
          [Event.clicked,
           Event.session_callback "temp-procedure-1".toList (some "mypattern".toList)
             1 2 1 (some [7, 9]) false]).button).1.popup = none :=
  ⟨(press_popup_exists.1 env0 button0 10 10 (Or.inl rfl)).1.2 ⟨rfl, by decide⟩,
   (press_popup_exists.1 env0
      { button0 with width := 10, height := 10, mask_data := some (List.replicate 100 0)
                     popup := some { x := 800, y := 0, width := 200, height := 200 } }
      10 10 (Or.inl rfl)).2 (by decide),
   (press_popup_exists.2 env0 button0
      [Event.clicked,
       Event.session_callback "temp-procedure-1".toList (some "mypattern".toList)
         1 2 1 (some [7, 9]) false]
      10 10 env0_lookups_well_formed (by decide)).2 (by decide)⟩

/-- C12: in every state reached from a widget without popup by a sequence
of events (press, release, click, session result, set request, drop) whose
deliveries of pixels are well-formed, and whenever cached pixel data exists,
a primary-button release on the inline preview leaves no popup; no event
other than a primary-button press opens a popup, so a popup exists only while
a press gesture is active; and a release with no popup open returns the
widget unchanged and raises no notification. -/
theorem release_closes_popup :
    (∀ (env : Env) (button : Button) (x y : Int), button.mask_data.isSome = true →
      (gimp_pattern_select_preview_events env (GdkEvent.GDK_BUTTON_RELEASE 1 x y)
        button).1.popup = none) ∧
    (∀ (env : Env) (button : Button) (evs : List Event) (x y : Int),
      lookups_well_formed env → (∀ ev ∈ evs, ev.delivery_well_formed = true) →
      (step env (run env (World.start { button with popup := none }) evs)
        (Event.preview_event (GdkEvent.GDK_BUTTON_RELEASE 1 x y))).button.popup = none) ∧
    (∀ (env : Env) (w : World) (ev : Event),
      (∀ x y, ev ≠ Event.preview_event (GdkEvent.GDK_BUTTON_PRESS 1 x y)) →
      w.button.popup = none → (step env w ev).button.popup = none) ∧
    (∀ (env : Env) (button : Button) (x y : Int), button.popup = none →
      (gimp_pattern_select_preview_events env (GdkEvent.GDK_BUTTON_RELEASE 1 x y)
        button).1 = button ∧
      notifications (gimp_pattern_select_preview_events env
        (GdkEvent.GDK_BUTTON_RELEASE 1 x y) button).2 = []) := by
  have hrel : ∀ (env : Env) (button : Button) (x y : Int),
      button.mask_data.isSome = true →
      (gimp_pattern_select_preview_events env (GdkEvent.GDK_BUTTON_RELEASE 1 x y)
        button).1.popup = none := by
    intro env button x y hs
    rw [release_with_pixels env button x y hs, (close_popup_result button).1]
  refine ⟨hrel, ?_, ?_, ?_⟩
  · intro env button evs x y henv hevs
    have hinv := run_popup_pixels env evs (World.start { button with popup := none })
      henv hevs (by simp [World.start])
    simp only [step]
    cases hm : (run env (World.start { button with popup := none }) evs).button.mask_data with
    | some d => exact hrel env _ x y (by simp [hm])
    | none =>
      rw [events_without_pixels env _ _ hm]
      cases hp : (run env (World.start { button with popup := none }) evs).button.popup with
      | none => rfl
      | some p =>
        have := hinv (by simp [hp])
        simp [hm] at this
  · intro env w ev hev h
    exact step_opens_no_popup env w ev hev h
  · intro env button x y hp
    cases hm : button.mask_data with
    | none =>
      rw [events_without_pixels env _ button hm]
      exact ⟨rfl, rfl⟩
    | some d =>
      have hs : button.mask_data.isSome = true := by simp [hm]
      rw [release_with_pixels env button x y hs]
      have hc := close_popup_result button
      refine ⟨?_, ?_⟩
      · rw [hc.1]
        cases button
        simp_all
      · simpa [notifications] using hc.2

/-- C12 at the example: after a click, a press and a session
result with the two pixels of `mypattern`, the release leaves no popup; a
release on the example widget, which has no popup, changes nothing; a release
on the widget with its popup open closes it; a click opens no popup. -/
theorem release_closes_popup_witness :
    (step env0
        (run env0 (World.start { button0 with popup := none })
          [Event.clicked, Event.preview_event (GdkEvent.GDK_BUTTON_PRESS 1 10 10),
           Event.session_callback "temp-procedure-1".toList (some "mypattern".toList)
             1 2 1 (some [7, 9]) false])
        (Event.preview_event (GdkEvent.GDK_BUTTON_RELEASE 1 10 10))).button.popup = none ∧
    (gimp_pattern_select_preview_events env0 (GdkEvent.GDK_BUTTON_RELEASE 1 10 10)
        button0).1 = button0 ∧
    (gimp_pattern_select_preview_events env0 (GdkEvent.GDK_BUTTON_RELEASE 1 10 10)
        { button0 with popup := some { x := 800, y := 0, width := 200, height := 200 } }
      ).1.popup = none ∧
    (step env0 (World.start button0) Event.clicked).button.popup = none :=
  ⟨release_closes_popup.2.1 env0 button0
      [Event.clicked, Event.preview_event (GdkEvent.GDK_BUTTON_PRESS 1 10 10),
       Event.session_callback "temp-procedure-1".toList (some "mypattern".toList)
         1 2 1 (some [7, 9]) false]
      10 10 env0_lookups_well_formed (by decide),
   (release_closes_popup.2.2.2 env0 button0 10 10 rfl).1,
   release_closes_popup.1 env0
      { button0 with popup := some { x := 800, y := 0, width := 200, height := 200 } }
      10 10 rfl,
   release_closes_popup.2.2.1 env0 (World.start button0) Event.clicked
      (by intro x y; exact Event.noConfusion) rfl⟩

/-! ## `NULL` as a pattern name, construction, repetition -/

/-- C13 (what the code does): on the example widget, which caches `Clouds`
(200x200, 1 byte per pixel) and has no session,
`gimp_pattern_select_button_set_pattern (button, NULL)` looks up the
repository's current pattern `Pine` and caches its name, its size 2x2x3 and
its pixels: the cached name and image are not those before the call. -/
theorem set_pattern_null_replaces_cache :
    gimp_pattern_select_button_get_pattern button0 = some "Clouds".toList ∧
    gimp_pattern_select_button_get_pattern
      (gimp_pattern_select_button_set_pattern env0 button0 none).1 = some "Pine".toList ∧
    (gimp_pattern_select_button_set_pattern env0 button0 none).1.width = 2 ∧
    (gimp_pattern_select_button_set_pattern env0 button0 none).1.height = 2 ∧
    (gimp_pattern_select_button_set_pattern env0 button0 none).1.bytes = 3 ∧
    (gimp_pattern_select_button_set_pattern env0 button0 none).1.mask_data =
      some [1, 2, 3, 4, 5, 6, 7, 8, 9, 10, 11, 12] ∧
    pixel_lookups (gimp_pattern_select_button_set_pattern env0 button0 none).2 =
      [some "Pine".toList] := by
  decide

/-- C14 (as stated, refuted): `gimp_pattern_select_button_new` with the
initial pattern `nopattern`, whose lookup fails in the example repository,
yields a widget that caches the name and the twelve pixel bytes of the
current pattern `Pine`. -/
theorem new_failed_lookup_keeps_current_pattern :
    env0.gimp_pattern_get_pixels (some "nopattern".toList) = none ∧
    (gimp_pattern_select_button_new env0 (some "Title".toList)
        (some "nopattern".toList)).1.pattern_name = some "Pine".toList ∧
    (gimp_pattern_select_button_new env0 (some "Title".toList)
        (some "nopattern".toList)).1.mask_data =
      some [1, 2, 3, 4, 5, 6, 7, 8, 9, 10, 11, 12] := by
  decide

/-- C14 (amended): when the lookup of the requested pattern (the initial
pattern, or the current one when that is `NULL` or empty) fails,
`gimp_pattern_select_button_new` returns the widget as
`gimp_pattern_select_button_init` left it, with the title set; so the widget
has no cached pixel data and size 0 when the lookup of the current pattern
made by `init` failed too, which is always so when the initial pattern is
`NULL` or empty.  The function is total: construction never fails. -/
theorem new_lookup_failure (env : Env) (title pattern_name : Option CStr)
    (hlookup : env.gimp_pattern_get_pixels (requested_name env pattern_name) = none) :
    (gimp_pattern_select_button_new env title pattern_name).1 =
      { (gimp_pattern_select_button_init env).1 with
        title := some (title.getD default_title) } ∧
    (env.gimp_pattern_get_pixels env.gimp_context_get_pattern = none →
      (gimp_pattern_select_button_new env title pattern_name).1.mask_data = none ∧
      (gimp_pattern_select_button_new env title pattern_name).1.width = 0 ∧
      (gimp_pattern_select_button_new env title pattern_name).1.height = 0 ∧
      (gimp_pattern_select_button_new env title pattern_name).1.bytes = 0) ∧
    (pattern_name = none ∨ pattern_name = some [] →
      (gimp_pattern_select_button_new env title pattern_name).1.mask_data = none) := by
  have hinit : (gimp_pattern_select_button_init env).1.temp_callback = none := by
    rfl
  have htitle : (match title with
      | some t => some t
      | none => some default_title) = some (title.getD default_title) := by
    cases title <;> rfl
  have hnew : (gimp_pattern_select_button_new env title pattern_name).1 =
      { (gimp_pattern_select_button_init env).1 with
        title := some (title.getD default_title) } := by
    simp only [gimp_pattern_select_button_new, gimp_pattern_select_button_set_property,
      PROP_TITLE, PROP_PATTERN_NAME, htitle]
    simp only [if_true, OfNat.ofNat_ne_one, if_false]
    exact (set_pattern_lookup_failure_state env _ pattern_name hinit hlookup)
  have hfail : env.gimp_pattern_get_pixels env.gimp_context_get_pattern = none →
      (gimp_pattern_select_button_new env title pattern_name).1.mask_data = none ∧
      (gimp_pattern_select_button_new env title pattern_name).1.width = 0 ∧
      (gimp_pattern_select_button_new env title pattern_name).1.height = 0 ∧
      (gimp_pattern_select_button_new env title pattern_name).1.bytes = 0 := by
    intro hcur
    rw [hnew]
    simp [gimp_pattern_select_button_init, hcur, failed_lookup_pixels]
  refine ⟨hnew, hfail, ?_⟩
  intro habsent
  have hreq : requested_name env pattern_name = env.gimp_context_get_pattern := by
    simp [requested_name, habsent]
  rw [hreq] at hlookup
  exact (hfail hlookup).1

/-- C14 (amended) with a repository that knows no pattern: the widget
constructed without an initial pattern has no pixel data. -/
theorem new_lookup_failure_witness :
    (gimp_pattern_select_button_new
        { env0 with gimp_pattern_get_pixels := fun _ => none }
        (some "Title".toList) none).1.mask_data = none ∧
    (gimp_pattern_select_button_new
        { env0 with gimp_pattern_get_pixels := fun _ => none }
        (some "Title".toList) none).1.width = 0 :=
  ⟨(new_lookup_failure { env0 with gimp_pattern_get_pixels := fun _ => none }
      (some "Title".toList) none rfl).2.2 (Or.inl rfl),
   ((new_lookup_failure { env0 with gimp_pattern_get_pixels := fun _ => none }
      (some "Title".toList) none rfl).2.1 rfl).2.1⟩

/-- C15: without a session, `gimp_pattern_select_button_set_pattern` with the
same name twice in a row, the repository answering as a function of the name,
leaves the widget (name, size, pixels, session, popup) as one call does, and
each of the two calls looks the requested name up once. -/
theorem set_pattern_twice (env : Env) (button : Button) (pattern_name : Option CStr)
    (hsession : button.temp_callback = none) :
    (gimp_pattern_select_button_set_pattern env
        (gimp_pattern_select_button_set_pattern env button pattern_name).1
        pattern_name).1 =
      (gimp_pattern_select_button_set_pattern env button pattern_name).1 ∧
    pixel_lookups (gimp_pattern_select_button_set_pattern env button pattern_name).2 =
      [requested_name env pattern_name] ∧
    pixel_lookups (gimp_pattern_select_button_set_pattern env
        (gimp_pattern_select_button_set_pattern env button pattern_name).1
        pattern_name).2 = [requested_name env pattern_name] := by
  have hkeep := (set_pattern_sessions env button pattern_name).2
  rw [hsession] at hkeep
  refine ⟨?_, set_pattern_pixel_lookups env button pattern_name hsession,
    set_pattern_pixel_lookups env _ pattern_name hkeep⟩
  cases hl : env.gimp_pattern_get_pixels (requested_name env pattern_name) with
  | none =>
    rw [set_pattern_lookup_failure_state env button pattern_name hsession hl,
      set_pattern_lookup_failure_state env button pattern_name hsession hl]
  | some p =>
    simp only [gimp_pattern_select_button_set_pattern, hsession, set_pattern_resolved, hl,
      gimp_pattern_select_button_callback]
    simp

/-- C15 at the example: setting `mypattern` twice on the example widget. -/
theorem set_pattern_twice_witness :
    (gimp_pattern_select_button_set_pattern env0
        (gimp_pattern_select_button_set_pattern env0 button0
          (some "mypattern".toList)).1
        (some "mypattern".toList)).1 =
      (gimp_pattern_select_button_set_pattern env0 button0 (some "mypattern".toList)).1 :=
  (set_pattern_twice env0 button0 (some "mypattern".toList) rfl).1

/-! ## Drawing the preview -/

/-- C16: `gimp_pattern_select_preview_update` makes exactly one call of
`gimp_preview_area_draw`, for the rectangle `(0, 0, width, height)`, with the
pixels, the row stride `width * bytes` and the image type gray for 1 byte per
pixel, gray with alpha for 2, RGB for 3 and RGBA for 4; for every other
number of bytes per pixel (5, 0 and -1 for instance) it makes no call at all,
so it draws nothing and logs no warning. -/
theorem preview_update_draw (area : PreviewArea) (width height bytes : Int)
    (mask_data : Option Bytes) :
    gimp_pattern_select_preview_update area width height bytes mask_data =
      (match image_type_of_bytes bytes with
       | some type =>
         [Effect.gimp_preview_area_draw area 0 0 width height type mask_data
            (width * bytes)]
       | none => []) ∧
    gimp_pattern_select_preview_update area width height 1 mask_data =
      [Effect.gimp_preview_area_draw area 0 0 width height
         GimpImageType.GIMP_GRAY_IMAGE mask_data (width * 1)] ∧
    gimp_pattern_select_preview_update area width height 2 mask_data =
      [Effect.gimp_preview_area_draw area 0 0 width height
         GimpImageType.GIMP_GRAYA_IMAGE mask_data (width * 2)] ∧
    gimp_pattern_select_preview_update area width height 3 mask_data =
      [Effect.gimp_preview_area_draw area 0 0 width height
         GimpImageType.GIMP_RGB_IMAGE mask_data (width * 3)] ∧
    gimp_pattern_select_preview_update area width height 4 mask_data =
      [Effect.gimp_preview_area_draw area 0 0 width height
         GimpImageType.GIMP_RGBA_IMAGE mask_data (width * 4)] ∧
    gimp_pattern_select_preview_update area width height 5 mask_data = [] ∧
    gimp_pattern_select_preview_update area width height 0 mask_data = [] ∧
    gimp_pattern_select_preview_update area width height (-1) mask_data = [] ∧
    (gimp_pattern_select_preview_update area width height bytes mask_data).length =
      (if 1 ≤ bytes ∧ bytes ≤ 4 then 1 else 0) ∧
    warnings (gimp_pattern_select_preview_update area width height bytes mask_data) = [] := by
  refine ⟨?_, rfl, rfl, rfl, rfl, rfl, rfl, rfl, ?_, ?_⟩
  · unfold gimp_pattern_select_preview_update image_type_of_bytes
    split_ifs <;> rfl
  · unfold gimp_pattern_select_preview_update
    split_ifs <;> first | rfl | omega
  · unfold gimp_pattern_select_preview_update
    split_ifs <;> rfl

end GimpPatternSelect

namespace DrawableCommands

/-! ## Item visibility -/

/-- C17: for a non-empty selection `first :: rest` (worked on as the owning
layer alone when `first` is a layer mask) and a boolean `visible`,
`drawable_visible_cmd_callback` returns the image unchanged without any call
when `visible` is true and some drawable is visible, and when every drawable
has the visibility `visible`; otherwise, afterwards every drawable of the
list has the visibility `visible` and no other item changed, an undo group is
started once and ended once when the list length is not 1 and not at all when
it is 1, with more than one drawable every `push_undo` is true, and for a
single drawable there is one call of `gimp_item_set_visible` whose `push_undo`
is false exactly when the compressible item-visibility undo is for that
drawable. -/
theorem drawable_visible_cmd (image : Image) (first : Item) (rest : List Item)
    (visible : Bool) :
    ((visible = true ∧
        ∃ d ∈ effective_drawables image first rest, image.visible d = true) →
      drawable_visible_cmd_callback image (first :: rest) visible = (image, [])) ∧
    ((∀ d ∈ effective_drawables image first rest, image.visible d = visible) →
      drawable_visible_cmd_callback image (first :: rest) visible = (image, [])) ∧
    (¬ (visible = true ∧
        ∃ d ∈ effective_drawables image first rest, image.visible d = true) →
      ¬ (∀ d ∈ effective_drawables image first rest, image.visible d = visible) →
      (∀ d ∈ effective_drawables image first rest,
        (drawable_visible_cmd_callback image (first :: rest) visible).1.visible d =
          visible) ∧
      (∀ i, i ∉ effective_drawables image first rest →
        (drawable_visible_cmd_callback image (first :: rest) visible).1.visible i =
          image.visible i) ∧
      (drawable_visible_cmd_callback image (first :: rest) visible).2.count
          Call.gimp_image_undo_group_start =
        (if (effective_drawables image first rest).length ≠ 1 then 1 else 0) ∧
      (drawable_visible_cmd_callback image (first :: rest) visible).2.count
          Call.gimp_image_undo_group_end =
        (if (effective_drawables image first rest).length ≠ 1 then 1 else 0) ∧
      ((effective_drawables image first rest).length ≠ 1 →
        ∀ p ∈ push_undo_flags
          (drawable_visible_cmd_callback image (first :: rest) visible).2, p = true) ∧
      (∀ d, effective_drawables image first rest = [d] →
        ∃ p, push_undo_flags
            (drawable_visible_cmd_callback image (first :: rest) visible).2 = [p] ∧
          (p = false ↔ image.compressible_undo_item = some d))) := by
  rw [callback_unfold]
  generalize hds : effective_drawables image first rest = ds
  refine ⟨?_, ?_, ?_⟩
  · intro h
    rw [if_pos ((already_visible_iff image visible ds).2 h)]
  · intro h
    rw [(first_differing_nil_iff image visible ds).2 h]
    split_ifs <;> rfl
  · intro hA hB
    have hnot : ¬ (already_visible image visible ds = true) :=
      fun h => hA ((already_visible_iff image visible ds).1 h)
    rw [if_neg hnot]
    have hcover := first_differing_cover image visible ds
    have hsub := first_differing_subset image visible ds
    cases hit : first_differing image visible ds with
    | nil => exact absurd ((first_differing_nil_iff image visible ds).1 hit) hB
    | cons a iter =>
      rw [hit] at hcover hsub
      simp only [set_visible_from_visible, set_visible_from_calls]
      refine ⟨?_, ?_, ?_, ?_, ?_, ?_⟩
      · intro d hd
        rcases hcover d hd with hv | hmem
        · split_ifs <;> simp [hv]
        · rw [if_pos hmem]
      · intro i hi
        have : i ∉ a :: iter := fun hmem => hi (hsub i hmem)
        rw [if_neg this]
      · have hc := (count_group_map visible
          (if ds.length = 1 then
            (if image.compressible_undo_item = ds.head? then false else true)
           else true) (a :: iter)).1
        simp only [List.count_append, hc]
        split_ifs <;> simp_all
      · have hc := (count_group_map visible
          (if ds.length = 1 then
            (if image.compressible_undo_item = ds.head? then false else true)
           else true) (a :: iter)).2
        simp only [List.count_append, hc]
        split_ifs <;> simp_all
      · intro hlen p hp
        have e1 : push_undo_flags [Call.gimp_image_undo_group_start] = [] := rfl
        have e2 : push_undo_flags [Call.gimp_image_undo_group_end] = [] := rfl
        have e3 : push_undo_flags [Call.gimp_image_flush] = [] := rfl
        simp only [if_neg hlen, if_pos hlen, push_undo_flags_append, push_undo_flags_map,
          e1, e2, e3, List.nil_append, List.append_nil] at hp
        obtain ⟨_, _, h⟩ := List.mem_map.1 hp
        exact h.symm
      · intro d hd
        subst hd
        have ha : a :: iter = [d] := by
          have h1 : a = d := by simpa using hsub a (List.mem_cons_self _ _)
          have h2 : iter = [] := by
            simp only [first_differing] at hit
            split_ifs at hit
            · simpa using (List.cons.inj hit).2
          rw [h1, h2]
        rw [ha]
        refine ⟨(if image.compressible_undo_item = some d then false else true), ?_, ?_⟩
        · simp [push_undo_flags_append, push_undo_flags]
        · by_cases hu : image.compressible_undo_item = some d <;> simp [hu]

/-- C17 at the example image (items 1 and 3 visible, 2 and 4 not, undo for
item 2): showing `[1, 2]` and hiding `[2, 4]` change nothing; hiding
`[2, 1, 4, 3]` hides all four inside one undo group; showing `[2]` alone
makes one call with `push_undo` false. -/
theorem drawable_visible_cmd_witness :
    drawable_visible_cmd_callback image0 [1, 2] true = (image0, []) ∧
    drawable_visible_cmd_callback image0 [2, 4] false = (image0, []) ∧
    (∀ d ∈ effective_drawables image0 2 [1, 4, 3],
      (drawable_visible_cmd_callback image0 [2, 1, 4, 3] false).1.visible d = false) ∧
    (drawable_visible_cmd_callback image0 [2, 1, 4, 3] false).2.count
      Call.gimp_image_undo_group_start = 1 ∧
    (drawable_visible_cmd_callback image0 [2, 1, 4, 3] false).2.count
      Call.gimp_image_undo_group_end = 1 ∧
    (∃ p, push_undo_flags (drawable_visible_cmd_callback image0 [2] true).2 = [p] ∧
      (p = false ↔ image0.compressible_undo_item = some 2)) :=
  ⟨(drawable_visible_cmd image0 1 [2] true).1 ⟨rfl, by decide⟩,
   (drawable_visible_cmd image0 2 [4] false).2.1 (by decide),
   ((drawable_visible_cmd image0 2 [1, 4, 3] false).2.2 (by decide) (by decide)).1,
   ((drawable_visible_cmd image0 2 [1, 4, 3] false).2.2 (by decide)
      (by decide)).2.2.1.trans (by decide),
   ((drawable_visible_cmd image0 2 [1, 4, 3] false).2.2 (by decide)
      (by decide)).2.2.2.1.trans (by decide),
   ((drawable_visible_cmd image0 2 [] true).2.2 (by decide) (by decide)).2.2.2.2.2 2
      (by decide)⟩

end DrawableCommands
